import Mathlib

set_option maxHeartbeats 1000000

/-! Verification development for the drone inspection core of
`AI_Powered_Drone.py`: the waypoint-following motion model
(`DroneSimulator.update_position`), the stochastic detection pipeline
(`AnomalyDetector.detect_anomalies`), the dashboard tick loop
(`InspectionDashboard.update_dashboard`) and the report builder
(`InspectionDashboard.generate_report`).  Float quantities are modelled by
`ℝ`, numpy 3-vectors by an explicit record, Python lists by `List`, and the
Python `random` library by explicitly supplied draw values. -/

/-- A 3-vector of reals, modelling the numpy arrays used for positions,
velocities and waypoints. -/
@[ext]
structure Vec3 where
  x : ℝ
  y : ℝ
  z : ℝ

instance : Add Vec3 := ⟨fun a b => ⟨a.x + b.x, a.y + b.y, a.z + b.z⟩⟩

instance : Sub Vec3 := ⟨fun a b => ⟨a.x - b.x, a.y - b.y, a.z - b.z⟩⟩

instance : SMul ℝ Vec3 := ⟨fun r a => ⟨r * a.x, r * a.y, r * a.z⟩⟩

@[simp] theorem Vec3.add_x (a b : Vec3) : (a + b).x = a.x + b.x := rfl

@[simp] theorem Vec3.add_y (a b : Vec3) : (a + b).y = a.y + b.y := rfl

@[simp] theorem Vec3.add_z (a b : Vec3) : (a + b).z = a.z + b.z := rfl

@[simp] theorem Vec3.sub_x (a b : Vec3) : (a - b).x = a.x - b.x := rfl

@[simp] theorem Vec3.sub_y (a b : Vec3) : (a - b).y = a.y - b.y := rfl

@[simp] theorem Vec3.sub_z (a b : Vec3) : (a - b).z = a.z - b.z := rfl

@[simp] theorem Vec3.smul_x (r : ℝ) (a : Vec3) : (r • a).x = r * a.x := rfl

@[simp] theorem Vec3.smul_y (r : ℝ) (a : Vec3) : (r • a).y = r * a.y := rfl

@[simp] theorem Vec3.smul_z (r : ℝ) (a : Vec3) : (r • a).z = r * a.z := rfl

/-- Euclidean norm, modelling `np.linalg.norm`. -/
noncomputable def Vec3.norm (v : Vec3) : ℝ := Real.sqrt (v.x ^ 2 + v.y ^ 2 + v.z ^ 2)

theorem Vec3.norm_nonneg (v : Vec3) : 0 ≤ v.norm := Real.sqrt_nonneg _

theorem Vec3.norm_smul (r : ℝ) (v : Vec3) : (r • v).norm = |r| * v.norm := by
  unfold Vec3.norm
  rw [show (r • v).x ^ 2 + (r • v).y ^ 2 + (r • v).z ^ 2
        = r ^ 2 * (v.x ^ 2 + v.y ^ 2 + v.z ^ 2) by simp; ring,
    Real.sqrt_mul (sq_nonneg r), Real.sqrt_sq_eq_abs]

theorem Vec3.norm_mk_zero_zero (c : ℝ) : Vec3.norm ⟨0, 0, c⟩ = |c| := by
  unfold Vec3.norm
  simp [Real.sqrt_sq_eq_abs]

/-- A waypoint in the drone's flight path (`Waypoint` dataclass). -/
structure Waypoint where
  x : ℝ
  y : ℝ
  z : ℝ
  inspection_type : String := "general"

instance : Inhabited Waypoint := ⟨⟨0, 0, 0, "general"⟩⟩

/-- The 3-vector `np.array([target.x, target.y, target.z])`. -/
def Waypoint.pos (w : Waypoint) : Vec3 := ⟨w.x, w.y, w.z⟩

/-- The mutable state of `DroneSimulator`. -/
@[ext]
structure DroneState where
  position : Vec3
  velocity : Vec3
  max_speed : ℝ
  current_waypoint_idx : ℕ
  waypoints : List Waypoint
  is_flying : Bool
  battery_level : ℝ
  flight_path : List Vec3

/-- `DroneSimulator.__init__`. -/
def initDrone : DroneState :=
  { position := ⟨0, 0, 100⟩, velocity := ⟨0, 0, 0⟩, max_speed := 10,
    current_waypoint_idx := 0, waypoints := [], is_flying := false,
    battery_level := 100, flight_path := [] }

/-- `DroneSimulator.set_flight_path`. -/
def set_flight_path (waypoints : List Waypoint) (s : DroneState) : DroneState :=
  { s with waypoints := waypoints, current_waypoint_idx := 0, flight_path := [] }

/-- The tail of `DroneSimulator.update_position` after the arrival check: the
movement toward the target (guarded by `distance > 0`), the battery drain, and
the flight-path append.  `idx` is the (possibly already incremented) waypoint
index, `direction` and `distance` were computed before the increment. -/
noncomputable def move_step (dt : ℝ) (s : DroneState) (idx : ℕ)
    (direction : Vec3) (distance : ℝ) : DroneState :=
  let moved :=
    if 0 < distance then
      let direction_normalized := distance⁻¹ • direction
      let velocity := min s.max_speed (distance * 2) • direction_normalized
      { s with current_waypoint_idx := idx, velocity := velocity,
               position := s.position + dt • velocity }
    else
      { s with current_waypoint_idx := idx }
  { moved with battery_level := moved.battery_level - 0.1 * dt,
               flight_path := moved.flight_path ++ [moved.position] }

/-- `DroneSimulator.update_position(dt)`. -/
noncomputable def update_position (dt : ℝ) (s : DroneState) : DroneState :=
  if s.waypoints.isEmpty ∨ s.waypoints.length ≤ s.current_waypoint_idx then
    { s with is_flying := false }
  else
    let target := s.waypoints.getD s.current_waypoint_idx default
    let direction := target.pos - s.position
    let distance := direction.norm
    if distance < 1 then
      if s.waypoints.length ≤ s.current_waypoint_idx + 1 then
        { s with current_waypoint_idx := s.current_waypoint_idx + 1, is_flying := false }
      else
        move_step dt s (s.current_waypoint_idx + 1) direction distance
    else
      move_step dt s s.current_waypoint_idx direction distance

/-- Direction vector from the drone to its currently targeted waypoint. -/
def dirToTarget (s : DroneState) : Vec3 :=
  (s.waypoints.getD s.current_waypoint_idx default).pos - s.position

/-- Distance from the drone to its currently targeted waypoint. -/
noncomputable def distToTarget (s : DroneState) : ℝ := (dirToTarget s).norm

/-- The vehicle state at mission start: `InspectionDashboard.start_inspection`
runs `set_flight_path` and sets `is_flying = True`; `max_speed` is the
configurable constant (10 in `DroneSimulator.__init__`). -/
def startState (waypoints : List Waypoint) (max_speed : ℝ) : DroneState :=
  { set_flight_path waypoints { initDrone with max_speed := max_speed } with
      is_flying := true }

@[simp] theorem startState_position (w : List Waypoint) (m : ℝ) :
    (startState w m).position = ⟨0, 0, 100⟩ := rfl

@[simp] theorem startState_velocity (w : List Waypoint) (m : ℝ) :
    (startState w m).velocity = ⟨0, 0, 0⟩ := rfl

@[simp] theorem startState_max_speed (w : List Waypoint) (m : ℝ) :
    (startState w m).max_speed = m := rfl

@[simp] theorem startState_idx (w : List Waypoint) (m : ℝ) :
    (startState w m).current_waypoint_idx = 0 := rfl

@[simp] theorem startState_waypoints (w : List Waypoint) (m : ℝ) :
    (startState w m).waypoints = w := rfl

@[simp] theorem startState_is_flying (w : List Waypoint) (m : ℝ) :
    (startState w m).is_flying = true := rfl

@[simp] theorem startState_battery (w : List Waypoint) (m : ℝ) :
    (startState w m).battery_level = 100 := rfl

@[simp] theorem startState_flight_path (w : List Waypoint) (m : ℝ) :
    (startState w m).flight_path = [] := rfl

theorem move_step_pos (dt : ℝ) (s : DroneState) (idx : ℕ) (direction : Vec3)
    (distance : ℝ) (h : 0 < distance) :
    move_step dt s idx direction distance =
      { s with current_waypoint_idx := idx,
               velocity := min s.max_speed (distance * 2) • (distance⁻¹ • direction),
               position := s.position + dt • (min s.max_speed (distance * 2) • (distance⁻¹ • direction)),
               battery_level := s.battery_level - 0.1 * dt,
               flight_path := s.flight_path ++
                 [s.position + dt • (min s.max_speed (distance * 2) • (distance⁻¹ • direction))] } := by
  simp [move_step, h]

theorem move_step_zero (dt : ℝ) (s : DroneState) (idx : ℕ) (direction : Vec3)
    (distance : ℝ) (h : ¬ 0 < distance) :
    move_step dt s idx direction distance =
      { s with current_waypoint_idx := idx,
               battery_level := s.battery_level - 0.1 * dt,
               flight_path := s.flight_path ++ [s.position] } := by
  simp [move_step, h]

theorem update_position_done (dt : ℝ) (s : DroneState)
    (h : s.waypoints.length ≤ s.current_waypoint_idx ∨ s.waypoints = []) :
    update_position dt s = { s with is_flying := false } := by
  rcases h with h | h
  · rw [update_position, if_pos (Or.inr h)]
  · rw [update_position, if_pos (Or.inl (by simp [h]))]

theorem update_position_arrive_exhaust (dt : ℝ) (s : DroneState)
    (hidx : s.current_waypoint_idx < s.waypoints.length)
    (hlt : distToTarget s < 1)
    (hend : s.waypoints.length ≤ s.current_waypoint_idx + 1) :
    update_position dt s =
      { s with current_waypoint_idx := s.current_waypoint_idx + 1, is_flying := false } := by
  have h1 : ¬ (s.waypoints.isEmpty ∨ s.waypoints.length ≤ s.current_waypoint_idx) := by
    rw [List.isEmpty_iff_length_eq_zero]; omega
  rw [update_position, if_neg h1]
  simp only [distToTarget, dirToTarget] at hlt
  rw [if_pos hlt, if_pos hend]

theorem update_position_arrive_move (dt : ℝ) (s : DroneState)
    (hidx : s.current_waypoint_idx + 1 < s.waypoints.length)
    (hlt : distToTarget s < 1) :
    update_position dt s =
      move_step dt s (s.current_waypoint_idx + 1) (dirToTarget s) (distToTarget s) := by
  have h1 : ¬ (s.waypoints.isEmpty ∨ s.waypoints.length ≤ s.current_waypoint_idx) := by
    rw [List.isEmpty_iff_length_eq_zero]; omega
  rw [update_position, if_neg h1]
  simp only [distToTarget, dirToTarget] at hlt ⊢
  rw [if_pos hlt, if_neg (by omega)]

theorem update_position_move (dt : ℝ) (s : DroneState)
    (hidx : s.current_waypoint_idx < s.waypoints.length)
    (hge : ¬ distToTarget s < 1) :
    update_position dt s =
      move_step dt s s.current_waypoint_idx (dirToTarget s) (distToTarget s) := by
  have h1 : ¬ (s.waypoints.isEmpty ∨ s.waypoints.length ≤ s.current_waypoint_idx) := by
    rw [List.isEmpty_iff_length_eq_zero]; omega
  rw [update_position, if_neg h1]
  simp only [distToTarget, dirToTarget] at hge ⊢
  rw [if_neg hge]

theorem move_step_waypoints (dt : ℝ) (s : DroneState) (idx : ℕ) (direction : Vec3)
    (distance : ℝ) : (move_step dt s idx direction distance).waypoints = s.waypoints := by
  by_cases h : 0 < distance <;> simp [move_step, h]

theorem move_step_max_speed (dt : ℝ) (s : DroneState) (idx : ℕ) (direction : Vec3)
    (distance : ℝ) : (move_step dt s idx direction distance).max_speed = s.max_speed := by
  by_cases h : 0 < distance <;> simp [move_step, h]

theorem move_step_is_flying (dt : ℝ) (s : DroneState) (idx : ℕ) (direction : Vec3)
    (distance : ℝ) : (move_step dt s idx direction distance).is_flying = s.is_flying := by
  by_cases h : 0 < distance <;> simp [move_step, h]

theorem move_step_idx (dt : ℝ) (s : DroneState) (idx : ℕ) (direction : Vec3)
    (distance : ℝ) : (move_step dt s idx direction distance).current_waypoint_idx = idx := by
  by_cases h : 0 < distance <;> simp [move_step, h]

theorem update_position_waypoints (dt : ℝ) (s : DroneState) :
    (update_position dt s).waypoints = s.waypoints := by
  simp only [update_position]
  split
  · rfl
  · split
    · split
      · rfl
      · exact move_step_waypoints ..
    · exact move_step_waypoints ..

theorem update_position_max_speed (dt : ℝ) (s : DroneState) :
    (update_position dt s).max_speed = s.max_speed := by
  simp only [update_position]
  split
  · rfl
  · split
    · split
      · rfl
      · exact move_step_max_speed ..
    · exact move_step_max_speed ..

theorem iterate_update_waypoints (dt : ℝ) (n : ℕ) (s : DroneState) :
    ((update_position dt)^[n] s).waypoints = s.waypoints := by
  induction n generalizing s with
  | zero => rfl
  | succ n ih => rw [Function.iterate_succ_apply, ih, update_position_waypoints]

theorem iterate_update_max_speed (dt : ℝ) (n : ℕ) (s : DroneState) :
    ((update_position dt)^[n] s).max_speed = s.max_speed := by
  induction n generalizing s with
  | zero => rfl
  | succ n ih => rw [Function.iterate_succ_apply, ih, update_position_max_speed]

/-- One-tick waypoint-index facts: the index never decreases, never exceeds
the plan length, and if it equals the plan length after the tick then the
drone is no longer flying. -/
theorem waypoint_idx_step (dt : ℝ) (s : DroneState)
    (h : s.current_waypoint_idx ≤ s.waypoints.length) :
    s.current_waypoint_idx ≤ (update_position dt s).current_waypoint_idx ∧
    (update_position dt s).current_waypoint_idx ≤ s.waypoints.length ∧
    ((update_position dt s).current_waypoint_idx = s.waypoints.length →
      (update_position dt s).is_flying = false) := by
  by_cases hdone : s.waypoints.length ≤ s.current_waypoint_idx
  · rw [update_position_done dt s (Or.inl hdone)]
    exact ⟨le_refl _, h, fun _ => rfl⟩
  · have hidx : s.current_waypoint_idx < s.waypoints.length := by omega
    by_cases hlt : distToTarget s < 1
    · by_cases hend : s.waypoints.length ≤ s.current_waypoint_idx + 1
      · rw [update_position_arrive_exhaust dt s hidx hlt hend]
        exact ⟨by simp, by simp; omega, fun _ => rfl⟩
      · rw [update_position_arrive_move dt s (by omega) hlt]
        rw [move_step_idx, move_step_is_flying]
        exact ⟨by omega, by omega, fun hc => absurd hc (by omega)⟩
    · rw [update_position_move dt s hidx hlt]
      rw [move_step_idx, move_step_is_flying]
      exact ⟨le_refl _, by omega, fun hc => absurd hc (by omega)⟩

theorem vec_sub_add (t p w : Vec3) : t - (p + w) = (t - p) - w := by
  ext <;> simp <;> ring

theorem vec_smul_smul_smul (a b c : ℝ) (v : Vec3) :
    a • (b • (c • v)) = (a * (b * c)) • v := by
  ext <;> simp <;> ring

theorem vec_sub_smul_self (r : ℝ) (v : Vec3) : v - r • v = (1 - r) • v := by
  ext <;> simp <;> ring

/-- The scalar distance map realized by one moving tick: from distance `d`
to the target, the next distance to the same target is
`|d - min(max_speed, 2 d) * dt|`. -/
noncomputable def gstep (m dtv d : ℝ) : ℝ := |d - min m (d * 2) * dtv|

/-- Moving (with unchanged waypoint index) changes the distance to the target
exactly by the scalar map `gstep`. -/
theorem distToTarget_move_step (dt : ℝ) (s : DroneState)
    (h : 0 < distToTarget s) :
    distToTarget (move_step dt s s.current_waypoint_idx (dirToTarget s) (distToTarget s))
      = gstep s.max_speed dt (distToTarget s) := by
  rw [move_step_pos dt s s.current_waypoint_idx (dirToTarget s) (distToTarget s) h]
  set d := distToTarget s with hd
  set k := min s.max_speed (d * 2) with hk
  have hdir : dirToTarget
      { s with current_waypoint_idx := s.current_waypoint_idx,
               velocity := k • (d⁻¹ • dirToTarget s),
               position := s.position + dt • (k • (d⁻¹ • dirToTarget s)),
               battery_level := s.battery_level - 0.1 * dt,
               flight_path := s.flight_path ++
                 [s.position + dt • (k • (d⁻¹ • dirToTarget s))] }
      = (1 - dt * (k * d⁻¹)) • dirToTarget s := by
    show (s.waypoints.getD s.current_waypoint_idx default).pos
        - (s.position + dt • (k • (d⁻¹ • dirToTarget s)))
      = (1 - dt * (k * d⁻¹)) • dirToTarget s
    rw [vec_sub_add, vec_smul_smul_smul]
    exact vec_sub_smul_self (dt * (k * d⁻¹)) (dirToTarget s)
  show (dirToTarget _).norm = gstep s.max_speed dt d
  rw [hdir, Vec3.norm_smul]
  have hdn : (dirToTarget s).norm = d := rfl
  rw [hdn]
  unfold gstep
  rw [← hk]
  have habs : |1 - dt * (k * d⁻¹)| * d = |(1 - dt * (k * d⁻¹)) * d| := by
    rw [abs_mul, abs_of_pos h]
  rw [habs]
  congr 1
  field_simp
  ring

/-- On a tick that is not an arrival tick (distance at least 1), the plan,
index, max speed and flying flag are unchanged and the distance to the
target evolves by `gstep`. -/
theorem nonarrival_tick (dt : ℝ) (s : DroneState)
    (hidx : s.current_waypoint_idx < s.waypoints.length)
    (hge : ¬ distToTarget s < 1) :
    (update_position dt s).waypoints = s.waypoints ∧
    (update_position dt s).current_waypoint_idx = s.current_waypoint_idx ∧
    (update_position dt s).max_speed = s.max_speed ∧
    (update_position dt s).is_flying = s.is_flying ∧
    distToTarget (update_position dt s) = gstep s.max_speed dt (distToTarget s) := by
  have h0 : 0 < distToTarget s := lt_of_lt_of_le one_pos (not_lt.mp hge)
  rw [update_position_move dt s hidx hge]
  exact ⟨move_step_waypoints .., move_step_idx .., move_step_max_speed ..,
    move_step_is_flying .., distToTarget_move_step dt s h0⟩

theorem gstep_contraction (m dtv d : ℝ) (h0 : 0 ≤ d) (h2 : d * 2 ≤ m) :
    gstep m dtv d = d * |1 - 2 * dtv| := by
  unfold gstep
  rw [min_eq_right h2]
  rw [show d - d * 2 * dtv = d * (1 - 2 * dtv) by ring, abs_mul, abs_of_nonneg h0]

/-- In the proportional-braking regime (`2 d ≤ max speed`) the distance
contracts geometrically and eventually drops below the arrival threshold. -/
theorem gstep_iter_small (m dtv d : ℝ) (hm : 0 < m) (hdt0 : 0 < dtv) (hdt1 : dtv < 1)
    (h0 : 0 ≤ d) (h2 : d * 2 ≤ m) : ∃ k, (gstep m dtv)^[k] d < 1 := by
  set c := |1 - 2 * dtv| with hc
  have hc1 : c < 1 := by
    rw [hc, abs_lt]; constructor <;> linarith
  have hc0 : 0 ≤ c := abs_nonneg _
  have aux : ∀ k, 0 ≤ (gstep m dtv)^[k] d ∧ ((gstep m dtv)^[k] d) * 2 ≤ m ∧
      (gstep m dtv)^[k] d = c ^ k * d := by
    intro k
    induction k with
    | zero => exact ⟨h0, h2, by simp⟩
    | succ k ih =>
      obtain ⟨ih0, ih2, ihv⟩ := ih
      rw [Function.iterate_succ_apply', gstep_contraction m dtv _ ih0 ih2]
      have hle : (gstep m dtv)^[k] d * c ≤ (gstep m dtv)^[k] d := by
        calc (gstep m dtv)^[k] d * c ≤ (gstep m dtv)^[k] d * 1 :=
              mul_le_mul_of_nonneg_left (le_of_lt hc1) ih0
          _ = (gstep m dtv)^[k] d := mul_one _
      refine ⟨mul_nonneg ih0 hc0, by linarith, ?_⟩
      rw [ihv]; ring
  by_cases hd1 : d < 1
  · exact ⟨0, by simpa using hd1⟩
  · have hd : 0 < d := lt_of_lt_of_le one_pos (not_lt.mp hd1)
    obtain ⟨k, hk⟩ := exists_pow_lt_of_lt_one (show (0:ℝ) < 1 / d by positivity) hc1
    refine ⟨k, ?_⟩
    rw [(aux k).2.2]
    calc c ^ k * d < 1 / d * d := mul_lt_mul_of_pos_right hk hd
      _ = 1 := by field_simp

/-- Distances bounded by `m/2 + n * (m * dt)` reach the arrival threshold. -/
theorem gstep_iter_bounded (m dtv : ℝ) (hm : 0 < m) (hdt0 : 0 < dtv) (hdt1 : dtv < 1) :
    ∀ (n : ℕ) (d : ℝ), 0 ≤ d → d ≤ m / 2 + n * (m * dtv) →
      ∃ k, (gstep m dtv)^[k] d < 1 := by
  intro n
  induction n with
  | zero =>
    intro d h0 hle
    exact gstep_iter_small m dtv d hm hdt0 hdt1 h0 (by push_cast at hle; linarith)
  | succ n ih =>
    intro d h0 hle
    by_cases h2 : d * 2 ≤ m
    · exact gstep_iter_small m dtv d hm hdt0 hdt1 h0 h2
    · have hmin : min m (d * 2) = m := min_eq_left (by linarith)
      have hmd : m * dtv < m := by
        calc m * dtv < m * 1 := mul_lt_mul_of_pos_left hdt1 hm
          _ = m := mul_one m
      by_cases hbig : m * dtv ≤ d
      · have hgd : gstep m dtv d = d - m * dtv := by
          unfold gstep; rw [hmin, abs_of_nonneg (by linarith)]
        obtain ⟨k, hk⟩ := ih (d - m * dtv) (by linarith) (by push_cast at hle ⊢; linarith)
        exact ⟨k + 1, by rw [Function.iterate_succ_apply, hgd]; exact hk⟩
      · have hgd : gstep m dtv d = m * dtv - d := by
          unfold gstep; rw [hmin, abs_of_neg (by linarith)]; ring
        have hg0 : 0 ≤ gstep m dtv d := by rw [hgd]; linarith
        have hg2 : gstep m dtv d * 2 ≤ m := by
          rw [hgd]
          have : d > m / 2 := by linarith
          linarith
        obtain ⟨k, hk⟩ := gstep_iter_small m dtv _ hm hdt0 hdt1 hg0 hg2
        exact ⟨k + 1, by rw [Function.iterate_succ_apply]; exact hk⟩

/-- Every starting distance reaches the arrival threshold in finitely many
scalar steps. -/
theorem gstep_iter_terminates (m dtv d : ℝ) (hm : 0 < m) (hdt0 : 0 < dtv)
    (hdt1 : dtv < 1) (h0 : 0 ≤ d) : ∃ k, (gstep m dtv)^[k] d < 1 := by
  have hmd : 0 < m * dtv := mul_pos hm hdt0
  obtain ⟨n, hn⟩ := Archimedean.arch d hmd
  rw [nsmul_eq_mul] at hn
  exact gstep_iter_bounded m dtv hm hdt0 hdt1 n d h0 (by linarith)

/-- Within one leg of the flight plan: if the scalar distance map reaches the
threshold in `k` steps, then within finitely many ticks the waypoint index
strictly increases or the drone stops flying. -/
theorem leg_progress (dt : ℝ) :
    ∀ (k : ℕ) (s : DroneState),
      (gstep s.max_speed dt)^[k] (distToTarget s) < 1 →
      s.current_waypoint_idx < s.waypoints.length →
      ∃ j, s.current_waypoint_idx < ((update_position dt)^[j] s).current_waypoint_idx ∨
        ((update_position dt)^[j] s).is_flying = false := by
  intro k
  induction k with
  | zero =>
    intro s hk hidx
    simp only [Function.iterate_zero, id] at hk
    refine ⟨1, ?_⟩
    rw [Function.iterate_one]
    by_cases hend : s.waypoints.length ≤ s.current_waypoint_idx + 1
    · rw [update_position_arrive_exhaust dt s hidx hk hend]
      exact Or.inr rfl
    · rw [update_position_arrive_move dt s (by omega) hk, move_step_idx]
      exact Or.inl (by omega)
  | succ k ih =>
    intro s hk hidx
    by_cases hlt : distToTarget s < 1
    · refine ⟨1, ?_⟩
      rw [Function.iterate_one]
      by_cases hend : s.waypoints.length ≤ s.current_waypoint_idx + 1
      · rw [update_position_arrive_exhaust dt s hidx hlt hend]
        exact Or.inr rfl
      · rw [update_position_arrive_move dt s (by omega) hlt, move_step_idx]
        exact Or.inl (by omega)
    · obtain ⟨hw, hi, hms, _, hdist⟩ := nonarrival_tick dt s hidx hlt
      have hk' : (gstep (update_position dt s).max_speed dt)^[k]
          (distToTarget (update_position dt s)) < 1 := by
        rw [hms, hdist]
        rw [Function.iterate_succ_apply] at hk
        exact hk
      have hidx' : (update_position dt s).current_waypoint_idx
          < (update_position dt s).waypoints.length := by
        rw [hw, hi]; exact hidx
      obtain ⟨j, hj⟩ := ih (update_position dt s) hk' hidx'
      refine ⟨j + 1, ?_⟩
      rw [Function.iterate_succ_apply]
      rcases hj with hj | hj
      · exact Or.inl (by rw [hi] at hj; exact hj)
      · exact Or.inr hj

/-- Strong induction on the number of remaining waypoints: the mission always
reaches `is_flying = false` when `0 < max_speed` and `0 < dt < 1`. -/
theorem mission_terminates_aux (dt : ℝ) (hdt0 : 0 < dt) (hdt1 : dt < 1) :
    ∀ (r : ℕ) (s : DroneState), 0 < s.max_speed →
      s.waypoints.length - s.current_waypoint_idx ≤ r →
      ∃ n, ((update_position dt)^[n] s).is_flying = false := by
  intro r
  induction r with
  | zero =>
    intro s hm hr
    refine ⟨1, ?_⟩
    rw [Function.iterate_one, update_position_done dt s (Or.inl (by omega))]
  | succ r ih =>
    intro s hm hr
    by_cases hdone : s.waypoints.length ≤ s.current_waypoint_idx
    · refine ⟨1, ?_⟩
      rw [Function.iterate_one, update_position_done dt s (Or.inl hdone)]
    · have hidx : s.current_waypoint_idx < s.waypoints.length := by omega
      obtain ⟨k, hk⟩ := gstep_iter_terminates s.max_speed dt (distToTarget s) hm hdt0 hdt1
        (Vec3.norm_nonneg _)
      obtain ⟨j, hj⟩ := leg_progress dt k s hk hidx
      rcases hj with hj | hj
      · have hms : ((update_position dt)^[j] s).max_speed = s.max_speed :=
          iterate_update_max_speed dt j s
        have hws : ((update_position dt)^[j] s).waypoints = s.waypoints :=
          iterate_update_waypoints dt j s
        obtain ⟨n, hn⟩ := ih ((update_position dt)^[j] s) (by rw [hms]; exact hm)
          (by rw [hws]; omega)
        refine ⟨n + j, ?_⟩
        rw [Function.iterate_add_apply]
        exact hn
      · exact ⟨j, hj⟩

/-- Claim C1 (amended): for every flight plan, every positive max-speed
constant and every time step with `0 < dt < 1`, repeatedly calling
`update_position dt` from the mission start state sets `is_flying = false`
after a finite number of ticks. -/
theorem C1_mission_terminates (waypoints : List Waypoint) (m dt : ℝ)
    (hm : 0 < m) (hdt0 : 0 < dt) (hdt1 : dt < 1) :
    ∃ n, ((update_position dt)^[n] (startState waypoints m)).is_flying = false := by
  exact mission_terminates_aux dt hdt0 hdt1
    (startState waypoints m).waypoints.length (startState waypoints m) hm (by omega)

theorem C1_mission_terminates_witness :
    (0:ℝ) < 10 ∧ (0:ℝ) < 1/2 ∧ (1/2:ℝ) < 1 ∧
    ∃ n, ((update_position (1/2))^[n]
      (startState [⟨0, 0, 50, "general"⟩] 10)).is_flying = false :=
  ⟨by norm_num, by norm_num, by norm_num,
    C1_mission_terminates [⟨0, 0, 50, "general"⟩] 10 (1/2)
      (by norm_num) (by norm_num) (by norm_num)⟩

theorem c1_step_from100 (s : DroneState)
    (hw : s.waypoints = [⟨0, 0, 96, "general"⟩]) (hi : s.current_waypoint_idx = 0)
    (hm : s.max_speed = 10) (hp : s.position = ⟨0, 0, 100⟩) :
    (update_position 1 s).position = ⟨0, 0, 92⟩ ∧
    (update_position 1 s).is_flying = s.is_flying ∧
    (update_position 1 s).current_waypoint_idx = 0 := by
  have hdir : dirToTarget s = ⟨0, 0, -4⟩ := by
    unfold dirToTarget
    rw [hw, hi, hp]
    show (⟨0, 0, 96, "general"⟩ : Waypoint).pos - ⟨0, 0, 100⟩ = ⟨0, 0, -4⟩
    unfold Waypoint.pos
    ext <;> simp <;> norm_num
  have hdist : distToTarget s = 4 := by
    unfold distToTarget
    rw [hdir, Vec3.norm_mk_zero_zero]
    norm_num
  have hidx : s.current_waypoint_idx < s.waypoints.length := by rw [hw, hi]; simp
  rw [update_position_move 1 s hidx (by rw [hdist]; norm_num)]
  rw [move_step_pos _ _ _ _ _ (by rw [hdist]; norm_num)]
  refine ⟨?_, rfl, hi⟩
  show s.position + (1:ℝ) • _ = _
  rw [hdist, hdir, hp, hm]
  ext <;> simp [min_def] <;> norm_num

theorem c1_step_from92 (s : DroneState)
    (hw : s.waypoints = [⟨0, 0, 96, "general"⟩]) (hi : s.current_waypoint_idx = 0)
    (hm : s.max_speed = 10) (hp : s.position = ⟨0, 0, 92⟩) :
    (update_position 1 s).position = ⟨0, 0, 100⟩ ∧
    (update_position 1 s).is_flying = s.is_flying ∧
    (update_position 1 s).current_waypoint_idx = 0 := by
  have hdir : dirToTarget s = ⟨0, 0, 4⟩ := by
    unfold dirToTarget
    rw [hw, hi, hp]
    show (⟨0, 0, 96, "general"⟩ : Waypoint).pos - ⟨0, 0, 92⟩ = ⟨0, 0, 4⟩
    unfold Waypoint.pos
    ext <;> simp <;> norm_num
  have hdist : distToTarget s = 4 := by
    unfold distToTarget
    rw [hdir, Vec3.norm_mk_zero_zero]
    norm_num
  have hidx : s.current_waypoint_idx < s.waypoints.length := by rw [hw, hi]; simp
  rw [update_position_move 1 s hidx (by rw [hdist]; norm_num)]
  rw [move_step_pos _ _ _ _ _ (by rw [hdist]; norm_num)]
  refine ⟨?_, rfl, hi⟩
  show s.position + (1:ℝ) • _ = _
  rw [hdist, hdir, hp, hm]
  ext <;> simp [min_def] <;> norm_num

/-- With `dt = 1` the proportional rule reflects the position across the
target each tick: the state oscillates forever and never lands. -/
theorem c1_oscillation (n : ℕ) :
    ((update_position 1)^[n] (startState [⟨0, 0, 96, "general"⟩] 10)).is_flying = true ∧
    ((update_position 1)^[n] (startState [⟨0, 0, 96, "general"⟩] 10)).current_waypoint_idx = 0 ∧
    (((update_position 1)^[n] (startState [⟨0, 0, 96, "general"⟩] 10)).position = ⟨0, 0, 100⟩ ∨
      ((update_position 1)^[n] (startState [⟨0, 0, 96, "general"⟩] 10)).position = ⟨0, 0, 92⟩) := by
  induction n with
  | zero => exact ⟨rfl, rfl, Or.inl rfl⟩
  | succ n ih =>
    obtain ⟨ihf, ihi, ihp⟩ := ih
    set t := (update_position 1)^[n] (startState [⟨0, 0, 96, "general"⟩] 10) with ht
    have hw : t.waypoints = [⟨0, 0, 96, "general"⟩] := iterate_update_waypoints ..
    have hm : t.max_speed = 10 := iterate_update_max_speed ..
    rw [Function.iterate_succ_apply']
    rcases ihp with hp | hp
    · obtain ⟨h1, h2, h3⟩ := c1_step_from100 t hw ihi hm hp
      exact ⟨by rw [h2, ihf], h3, Or.inr h1⟩
    · obtain ⟨h1, h2, h3⟩ := c1_step_from92 t hw ihi hm hp
      exact ⟨by rw [h2, ihf], h3, Or.inl h1⟩

/-- Claim C1 counterexample: with the nonzero time step `dt = 1`, positive
max speed `10` and the one-waypoint plan `[(0, 0, 96)]`, no number of ticks
ever sets `is_flying = false`: the mission never terminates. -/
theorem C1_counterexample :
    ¬ ∃ n, ((update_position 1)^[n]
      (startState [⟨0, 0, 96, "general"⟩] 10)).is_flying = false := by
  rintro ⟨n, hn⟩
  have h := (c1_oscillation n).1
  rw [h] at hn
  simp at hn

theorem c3_invariant (dt : ℝ) (wps : List Waypoint) (m : ℝ) (n : ℕ) :
    ((update_position dt)^[n] (startState wps m)).current_waypoint_idx ≤ wps.length ∧
    (1 ≤ n →
      ((update_position dt)^[n] (startState wps m)).current_waypoint_idx = wps.length →
      ((update_position dt)^[n] (startState wps m)).is_flying = false) := by
  induction n with
  | zero => exact ⟨Nat.zero_le _, by omega⟩
  | succ n ih =>
    set t := (update_position dt)^[n] (startState wps m) with ht
    have hw : t.waypoints = wps := iterate_update_waypoints ..
    have hb : t.current_waypoint_idx ≤ t.waypoints.length := by rw [hw]; exact ih.1
    obtain ⟨-, h2, h3⟩ := waypoint_idx_step dt t hb
    rw [Function.iterate_succ_apply']
    refine ⟨by rw [hw] at h2; exact h2, fun _ hc => h3 (by rw [hw]; exact hc)⟩

/-- Claim C3 (amended): in every state reachable from mission start the
waypoint index is non-decreasing across ticks and lies in `[0, N]`; and in
every reachable state other than the zero-tick start state of an empty plan
(that is, after at least one tick, or whenever the plan is nonempty),
`index = N` implies `is_flying = false`. -/
theorem C3_waypoint_idx_invariant (dt : ℝ) (wps : List Waypoint) (m : ℝ) (n : ℕ) :
    ((update_position dt)^[n] (startState wps m)).current_waypoint_idx ≤
      ((update_position dt)^[n + 1] (startState wps m)).current_waypoint_idx ∧
    ((update_position dt)^[n] (startState wps m)).current_waypoint_idx ≤ wps.length ∧
    ((1 ≤ n ∨ wps ≠ []) →
      ((update_position dt)^[n] (startState wps m)).current_waypoint_idx = wps.length →
      ((update_position dt)^[n] (startState wps m)).is_flying = false) := by
  set t := (update_position dt)^[n] (startState wps m) with ht
  have hw : t.waypoints = wps := iterate_update_waypoints ..
  have hb : t.current_waypoint_idx ≤ t.waypoints.length := by
    rw [hw]; exact (c3_invariant dt wps m n).1
  refine ⟨?_, by rw [← hw]; exact hb, ?_⟩
  · rw [Function.iterate_succ_apply']
    exact (waypoint_idx_step dt t hb).1
  · rintro (hn | hne) hc
    · exact (c3_invariant dt wps m n).2 hn hc
    · rcases Nat.eq_zero_or_pos n with rfl | hn
      · have : t.current_waypoint_idx = 0 := rfl
        rw [this] at hc
        have : wps = [] := List.length_eq_zero.mp hc.symm
        exact absurd this hne
      · exact (c3_invariant dt wps m n).2 hn hc

/-- Claim C3 counterexample: the mission-start state of an empty flight plan
is reachable (zero ticks), has waypoint index `0 = N`, yet `is_flying = true`:
the invariant `index = N → flying = false` fails there. -/
theorem C3_counterexample :
    (startState [] 10).current_waypoint_idx = ([] : List Waypoint).length ∧
    (startState [] 10).is_flying = true :=
  ⟨rfl, rfl⟩

theorem dist_start100_single :
    distToTarget (startState [⟨0, 0, 100, "general"⟩] 10) = 0 := by
  unfold distToTarget dirToTarget
  show Vec3.norm ((⟨0, 0, 100, "general"⟩ : Waypoint).pos - ⟨0, 0, 100⟩) = 0
  rw [show (⟨0, 0, 100, "general"⟩ : Waypoint).pos - (⟨0, 0, 100⟩ : Vec3) = ⟨0, 0, 0⟩ by
    unfold Waypoint.pos; ext <;> simp, Vec3.norm_mk_zero_zero]
  norm_num

theorem C3_waypoint_idx_invariant_witness :
    (1 ≤ 1 ∨ ([⟨0, 0, 100, "general"⟩] : List Waypoint) ≠ []) ∧
    ((update_position 1)^[1] (startState [⟨0, 0, 100, "general"⟩] 10)).current_waypoint_idx
      = ([⟨0, 0, 100, "general"⟩] : List Waypoint).length ∧
    ((update_position 1)^[1] (startState [⟨0, 0, 100, "general"⟩] 10)).is_flying = false := by
  have hstep : update_position 1 (startState [⟨0, 0, 100, "general"⟩] 10) =
      { startState [⟨0, 0, 100, "general"⟩] 10 with
          current_waypoint_idx := 0 + 1, is_flying := false } :=
    update_position_arrive_exhaust 1 _ (by simp)
      (by rw [dist_start100_single]; norm_num) (by simp)
  have hidx1 : ((update_position 1)^[1]
      (startState [⟨0, 0, 100, "general"⟩] 10)).current_waypoint_idx
      = ([⟨0, 0, 100, "general"⟩] : List Waypoint).length := by
    rw [Function.iterate_one, hstep]
    rfl
  exact ⟨Or.inl le_rfl, hidx1,
    (C3_waypoint_idx_invariant 1 [⟨0, 0, 100, "general"⟩] 10 1).2.2 (Or.inl le_rfl) hidx1⟩

/-- Claim C6: if the vehicle's position equals the first waypoint's position
(distance `0`, below the threshold), the very first tick advances the
waypoint index from 0 to 1 and leaves the position unchanged. -/
theorem C6_arrival_tie_break (dt : ℝ) (s : DroneState) (w : Waypoint)
    (hw : s.waypoints.head? = some w) (hidx : s.current_waypoint_idx = 0)
    (hpos : s.position = w.pos) :
    (update_position dt s).current_waypoint_idx = 1 ∧
    (update_position dt s).position = s.position := by
  obtain ⟨tl, hwl⟩ : ∃ tl, s.waypoints = w :: tl := by
    rcases hls : s.waypoints with - | ⟨a, tl⟩
    · rw [hls] at hw; simp at hw
    · rw [hls] at hw
      simp only [List.head?_cons, Option.some.injEq] at hw
      exact ⟨tl, by rw [hw]⟩
  have hdist : distToTarget s = 0 := by
    unfold distToTarget dirToTarget
    rw [hwl, hidx, hpos]
    show Vec3.norm (w.pos - w.pos) = 0
    rw [show w.pos - w.pos = (⟨0, 0, 0⟩ : Vec3) by ext <;> simp, Vec3.norm_mk_zero_zero]
    norm_num
  have hidxlen : s.current_waypoint_idx < s.waypoints.length := by rw [hwl, hidx]; simp
  by_cases hend : s.waypoints.length ≤ s.current_waypoint_idx + 1
  · rw [update_position_arrive_exhaust dt s hidxlen (by rw [hdist]; norm_num) hend]
    exact ⟨by simp [hidx], rfl⟩
  · rw [update_position_arrive_move dt s (by omega) (by rw [hdist]; norm_num)]
    rw [move_step_zero _ _ _ _ _ (by rw [hdist]; norm_num)]
    exact ⟨by simp [hidx], rfl⟩

theorem C6_arrival_tie_break_witness :
    ((startState [⟨0, 0, 100, "general"⟩, ⟨5, 5, 50, "general"⟩] 10).waypoints.head?
      = some ⟨0, 0, 100, "general"⟩) ∧
    ((startState [⟨0, 0, 100, "general"⟩, ⟨5, 5, 50, "general"⟩] 10).current_waypoint_idx = 0) ∧
    ((startState [⟨0, 0, 100, "general"⟩, ⟨5, 5, 50, "general"⟩] 10).position
      = (⟨0, 0, 100, "general"⟩ : Waypoint).pos) ∧
    (update_position 1 (startState [⟨0, 0, 100, "general"⟩, ⟨5, 5, 50, "general"⟩] 10)).current_waypoint_idx = 1 ∧
    (update_position 1 (startState [⟨0, 0, 100, "general"⟩, ⟨5, 5, 50, "general"⟩] 10)).position
      = (startState [⟨0, 0, 100, "general"⟩, ⟨5, 5, 50, "general"⟩] 10).position := by
  refine ⟨rfl, rfl, rfl, ?_⟩
  exact C6_arrival_tie_break 1 _ _ rfl rfl rfl

/-- Claim C9: on an arrival tick (`0 < distance < 1`) with further waypoints
remaining, the index is incremented and the vehicle still moves that tick,
with velocity computed from the direction and distance toward the
just-reached (pre-increment) waypoint; battery drains and the new position is
appended to the path history. -/
theorem C9_arrival_still_moves (dt : ℝ) (s : DroneState)
    (hidx : s.current_waypoint_idx + 1 < s.waypoints.length)
    (h0 : 0 < distToTarget s) (hlt : distToTarget s < 1) :
    update_position dt s =
      { s with
          current_waypoint_idx := s.current_waypoint_idx + 1,
          velocity := min s.max_speed (distToTarget s * 2) • ((distToTarget s)⁻¹ • dirToTarget s),
          position := s.position +
            dt • (min s.max_speed (distToTarget s * 2) • ((distToTarget s)⁻¹ • dirToTarget s)),
          battery_level := s.battery_level - 0.1 * dt,
          flight_path := s.flight_path ++
            [s.position +
              dt • (min s.max_speed (distToTarget s * 2) • ((distToTarget s)⁻¹ • dirToTarget s))] } := by
  rw [update_position_arrive_move dt s hidx hlt, move_step_pos _ _ _ _ _ h0]

theorem dist_start_half :
    distToTarget (startState [⟨0, 0, 100.5, "general"⟩, ⟨0, 0, 50, "general"⟩] 10) = 1/2 := by
  unfold distToTarget dirToTarget
  show Vec3.norm ((⟨0, 0, 100.5, "general"⟩ : Waypoint).pos - ⟨0, 0, 100⟩) = 1/2
  rw [show (⟨0, 0, 100.5, "general"⟩ : Waypoint).pos - (⟨0, 0, 100⟩ : Vec3)
      = ⟨0, 0, 1/2⟩ by unfold Waypoint.pos; ext <;> simp <;> norm_num,
    Vec3.norm_mk_zero_zero]
  norm_num

theorem C9_arrival_still_moves_witness :
    ((startState [⟨0, 0, 100.5, "general"⟩, ⟨0, 0, 50, "general"⟩] 10).current_waypoint_idx + 1
      < (startState [⟨0, 0, 100.5, "general"⟩, ⟨0, 0, 50, "general"⟩] 10).waypoints.length) ∧
    0 < distToTarget (startState [⟨0, 0, 100.5, "general"⟩, ⟨0, 0, 50, "general"⟩] 10) ∧
    distToTarget (startState [⟨0, 0, 100.5, "general"⟩, ⟨0, 0, 50, "general"⟩] 10) < 1 ∧
    (update_position (1/10)
        (startState [⟨0, 0, 100.5, "general"⟩, ⟨0, 0, 50, "general"⟩] 10)).current_waypoint_idx
      = (startState [⟨0, 0, 100.5, "general"⟩, ⟨0, 0, 50, "general"⟩] 10).current_waypoint_idx + 1 := by
  refine ⟨by simp, by rw [dist_start_half]; norm_num, by rw [dist_start_half]; norm_num, ?_⟩
  rw [C9_arrival_still_moves (1/10) _ (by simp)
    (by rw [dist_start_half]; norm_num) (by rw [dist_start_half]; norm_num)]

/-- Claim C10: when the plan is empty or already exhausted, a tick only
clears the flying flag; when arrival at the current waypoint exhausts the
plan, a tick only increments the index and clears the flying flag.  In both
cases position, velocity, battery level and path history are unchanged. -/
theorem C10_noop_frame (dt : ℝ) (s : DroneState) :
    ((s.waypoints.length ≤ s.current_waypoint_idx ∨ s.waypoints = []) →
      update_position dt s = { s with is_flying := false }) ∧
    (s.current_waypoint_idx < s.waypoints.length → distToTarget s < 1 →
      s.waypoints.length ≤ s.current_waypoint_idx + 1 →
      update_position dt s =
        { s with current_waypoint_idx := s.current_waypoint_idx + 1, is_flying := false }) :=
  ⟨update_position_done dt s, update_position_arrive_exhaust dt s⟩

theorem C10_noop_frame_witness :
    (([] : List Waypoint).length ≤ (startState [] 10).current_waypoint_idx ∨
      (startState [] 10).waypoints = []) ∧
    update_position 1 (startState [] 10) = { startState [] 10 with is_flying := false } ∧
    ((startState [⟨0, 0, 100, "general"⟩] 10).current_waypoint_idx
        < (startState [⟨0, 0, 100, "general"⟩] 10).waypoints.length ∧
      distToTarget (startState [⟨0, 0, 100, "general"⟩] 10) < 1 ∧
      (startState [⟨0, 0, 100, "general"⟩] 10).waypoints.length
        ≤ (startState [⟨0, 0, 100, "general"⟩] 10).current_waypoint_idx + 1) ∧
    update_position 1 (startState [⟨0, 0, 100, "general"⟩] 10) =
      { startState [⟨0, 0, 100, "general"⟩] 10 with
          current_waypoint_idx := (startState [⟨0, 0, 100, "general"⟩] 10).current_waypoint_idx + 1,
          is_flying := false } := by
  have hd : distToTarget (startState [⟨0, 0, 100, "general"⟩] 10) < 1 := by
    rw [dist_start100_single]; norm_num
  refine ⟨Or.inr rfl, (C10_noop_frame 1 (startState [] 10)).1 (Or.inr rfl),
    ⟨by simp, hd, by simp⟩, (C10_noop_frame 1 _).2 (by simp) hd (by simp)⟩

/-- One detection record as returned by the `_detect_*` helpers (the Python
dict with keys `bbox`, `confidence`, `severity`). -/
structure Detection where
  bbox : ℕ × ℕ × ℕ × ℕ
  confidence : ℝ
  severity : String

/-- The random draws consumed by one detector on one tick: `trigger` models
the `random.random()` firing test, `rx ry rw rh` the `random.randint` draws,
`rconf` the `random.random()` underlying `random.uniform`, and `rsev` the
draw underlying `random.choice`. -/
structure DetectorDraws where
  trigger : ℝ
  rx : ℕ
  ry : ℕ
  rw : ℕ
  rh : ℕ
  rconf : ℝ
  rsev : ℕ

/-- `random.randint(a, b)`: an integer uniform in `[a, b]`; the external draw
`u` is mapped into the range. -/
def randint (a b : ℕ) (u : ℕ) : ℕ := a + u % (b - a + 1)

/-- `random.uniform(a, b) = a + (b - a) * random()`, with `random() = u`. -/
noncomputable def uniform (a b : ℝ) (u : ℝ) : ℝ := a + (b - a) * u

/-- `random.choice(lst)`: the element of `lst` selected by the draw `u`. -/
def choice (lst : List String) (u : ℕ) : String := lst.getD (u % lst.length) ""

/-- `AnomalyDetector._detect_cracks`. -/
noncomputable def detect_cracks (d : DetectorDraws) : List Detection :=
  if d.trigger < 0.3 then
    [{ bbox := (randint 50 550 d.rx, randint 50 400 d.ry,
                randint 80 150 d.rw, randint 10 30 d.rh),
       confidence := uniform 0.7 0.95 d.rconf,
       severity := choice ["low", "medium", "high"] d.rsev }]
  else []

/-- `AnomalyDetector._detect_rust`. -/
noncomputable def detect_rust (d : DetectorDraws) : List Detection :=
  if d.trigger < 0.25 then
    [{ bbox := (randint 50 500 d.rx, randint 50 350 d.ry,
                randint 40 100 d.rw, randint 40 100 d.rh),
       confidence := uniform 0.6 0.9 d.rconf,
       severity := choice ["low", "medium"] d.rsev }]
  else []

/-- `AnomalyDetector._detect_loose_bolts` (fixed 60 by 60 box). -/
noncomputable def detect_loose_bolts (d : DetectorDraws) : List Detection :=
  if d.trigger < 0.15 then
    [{ bbox := (randint 290 350 d.rx, randint 210 270 d.ry, 60, 60),
       confidence := uniform 0.8 0.95 d.rconf,
       severity := choice ["medium", "high", "critical"] d.rsev }]
  else []

/-- `AnomalyDetector._detect_corrosion`. -/
noncomputable def detect_corrosion (d : DetectorDraws) : List Detection :=
  if d.trigger < 0.2 then
    [{ bbox := (randint 100 450 d.rx, randint 100 300 d.ry,
                randint 60 120 d.rw, randint 60 120 d.rh),
       confidence := uniform 0.65 0.85 d.rconf,
       severity := choice ["low", "medium", "high"] d.rsev }]
  else []

/-- The `Anomaly` dataclass.  `timestamp` is the external wall-clock
millisecond value `int(time.time() * 1000)` supplied to the tick; the `id`
renders it in decimal exactly as the f-string does. -/
structure Anomaly where
  id : String
  type : String
  confidence : ℝ
  position : Vec3
  timestamp : ℕ
  bbox : ℕ × ℕ × ℕ × ℕ
  severity : String

/-- The draws consumed by the four registered detectors on one tick, in
registration order. -/
structure TickDraws where
  crack : DetectorDraws
  rust : DetectorDraws
  loose_bolt : DetectorDraws
  corrosion : DetectorDraws

/-- Construction of one `Anomaly` record inside `detect_anomalies`:
`id = f"{anomaly_type}_{int(time.time() * 1000)}"`. -/
def mkAnomaly (ty : String) (now_ms : ℕ) (position : Vec3) (det : Detection) : Anomaly :=
  { id := ty ++ "_" ++ Nat.repr now_ms, type := ty, confidence := det.confidence,
    position := position, timestamp := now_ms, bbox := det.bbox,
    severity := det.severity }

/-- `AnomalyDetector.detect_anomalies`: runs the four registered detectors in
registration order and wraps every detection into an `Anomaly`. -/
noncomputable def detect_anomalies (td : TickDraws) (now_ms : ℕ) (position : Vec3) :
    List Anomaly :=
  ((detect_cracks td.crack).map (mkAnomaly "crack" now_ms position)) ++
  ((detect_rust td.rust).map (mkAnomaly "rust" now_ms position)) ++
  ((detect_loose_bolts td.loose_bolt).map (mkAnomaly "loose_bolt" now_ms position)) ++
  ((detect_corrosion td.corrosion).map (mkAnomaly "corrosion" now_ms position))

/-- Ranges of the crack row of the configuration table. -/
def crackRangesOK (a : Anomaly) : Prop :=
  a.type = "crack" ∧
  50 ≤ a.bbox.1 ∧ a.bbox.1 ≤ 550 ∧ 50 ≤ a.bbox.2.1 ∧ a.bbox.2.1 ≤ 400 ∧
  80 ≤ a.bbox.2.2.1 ∧ a.bbox.2.2.1 ≤ 150 ∧ 10 ≤ a.bbox.2.2.2 ∧ a.bbox.2.2.2 ≤ 30 ∧
  0.7 ≤ a.confidence ∧ a.confidence ≤ 0.95 ∧
  (a.severity = "low" ∨ a.severity = "medium" ∨ a.severity = "high")

/-- Ranges of the rust row of the configuration table. -/
def rustRangesOK (a : Anomaly) : Prop :=
  a.type = "rust" ∧
  50 ≤ a.bbox.1 ∧ a.bbox.1 ≤ 500 ∧ 50 ≤ a.bbox.2.1 ∧ a.bbox.2.1 ≤ 350 ∧
  40 ≤ a.bbox.2.2.1 ∧ a.bbox.2.2.1 ≤ 100 ∧ 40 ≤ a.bbox.2.2.2 ∧ a.bbox.2.2.2 ≤ 100 ∧
  0.6 ≤ a.confidence ∧ a.confidence ≤ 0.9 ∧
  (a.severity = "low" ∨ a.severity = "medium")

/-- Ranges of the loose-bolt row of the configuration table. -/
def looseBoltRangesOK (a : Anomaly) : Prop :=
  a.type = "loose_bolt" ∧
  290 ≤ a.bbox.1 ∧ a.bbox.1 ≤ 350 ∧ 210 ≤ a.bbox.2.1 ∧ a.bbox.2.1 ≤ 270 ∧
  a.bbox.2.2.1 = 60 ∧ a.bbox.2.2.2 = 60 ∧
  0.8 ≤ a.confidence ∧ a.confidence ≤ 0.95 ∧
  (a.severity = "medium" ∨ a.severity = "high" ∨ a.severity = "critical")

/-- Ranges of the corrosion row of the configuration table. -/
def corrosionRangesOK (a : Anomaly) : Prop :=
  a.type = "corrosion" ∧
  100 ≤ a.bbox.1 ∧ a.bbox.1 ≤ 450 ∧ 100 ≤ a.bbox.2.1 ∧ a.bbox.2.1 ≤ 300 ∧
  60 ≤ a.bbox.2.2.1 ∧ a.bbox.2.2.1 ≤ 120 ∧ 60 ≤ a.bbox.2.2.2 ∧ a.bbox.2.2.2 ≤ 120 ∧
  0.65 ≤ a.confidence ∧ a.confidence ≤ 0.85 ∧
  (a.severity = "low" ∨ a.severity = "medium" ∨ a.severity = "high")

theorem randint_mem (a b u : ℕ) (h : a ≤ b) :
    a ≤ randint a b u ∧ randint a b u ≤ b := by
  unfold randint
  have h1 : u % (b - a + 1) < b - a + 1 := Nat.mod_lt _ (by omega)
  omega

theorem uniform_mem (a b u : ℝ) (hab : a ≤ b) (h0 : 0 ≤ u) (h1 : u < 1) :
    a ≤ uniform a b u ∧ uniform a b u ≤ b := by
  unfold uniform
  constructor <;> nlinarith

theorem choice_three (s1 s2 s3 : String) (u : ℕ) :
    choice [s1, s2, s3] u = s1 ∨ choice [s1, s2, s3] u = s2 ∨
      choice [s1, s2, s3] u = s3 := by
  unfold choice
  have h : u % 3 = 0 ∨ u % 3 = 1 ∨ u % 3 = 2 := by omega
  have hl : ([s1, s2, s3] : List String).length = 3 := rfl
  rw [hl]
  rcases h with h | h | h <;> rw [h] <;> simp

theorem choice_two (s1 s2 : String) (u : ℕ) :
    choice [s1, s2] u = s1 ∨ choice [s1, s2] u = s2 := by
  unfold choice
  have h : u % 2 = 0 ∨ u % 2 = 1 := by omega
  have hl : ([s1, s2] : List String).length = 2 := rfl
  rw [hl]
  rcases h with h | h <;> rw [h] <;> simp

/-- Claim C4: every anomaly produced by a `detect` call has its bounding box,
confidence and severity inside its category's configured ranges, and its
category is one of the four registered detector keys. -/
theorem C4_detection_ranges (td : TickDraws) (now_ms : ℕ) (position : Vec3)
    (hc0 : 0 ≤ td.crack.rconf) (hc1 : td.crack.rconf < 1)
    (hr0 : 0 ≤ td.rust.rconf) (hr1 : td.rust.rconf < 1)
    (hb0 : 0 ≤ td.loose_bolt.rconf) (hb1 : td.loose_bolt.rconf < 1)
    (hk0 : 0 ≤ td.corrosion.rconf) (hk1 : td.corrosion.rconf < 1) :
    ∀ a ∈ detect_anomalies td now_ms position,
      crackRangesOK a ∨ rustRangesOK a ∨ looseBoltRangesOK a ∨ corrosionRangesOK a := by
  intro a ha
  unfold detect_anomalies at ha
  simp only [List.mem_append, List.mem_map] at ha
  rcases ha with ((⟨det, hdet, rfl⟩ | ⟨det, hdet, rfl⟩) | ⟨det, hdet, rfl⟩) | ⟨det, hdet, rfl⟩
  · refine Or.inl ?_
    unfold detect_cracks at hdet
    split at hdet
    · rw [List.mem_singleton] at hdet
      subst hdet
      exact ⟨rfl, (randint_mem 50 550 _ (by norm_num)).1, (randint_mem 50 550 _ (by norm_num)).2,
        (randint_mem 50 400 _ (by norm_num)).1, (randint_mem 50 400 _ (by norm_num)).2,
        (randint_mem 80 150 _ (by norm_num)).1, (randint_mem 80 150 _ (by norm_num)).2,
        (randint_mem 10 30 _ (by norm_num)).1, (randint_mem 10 30 _ (by norm_num)).2,
        (uniform_mem 0.7 0.95 _ (by norm_num) hc0 hc1).1,
        (uniform_mem 0.7 0.95 _ (by norm_num) hc0 hc1).2,
        choice_three "low" "medium" "high" _⟩
    · simp at hdet
  · refine Or.inr (Or.inl ?_)
    unfold detect_rust at hdet
    split at hdet
    · rw [List.mem_singleton] at hdet
      subst hdet
      exact ⟨rfl, (randint_mem 50 500 _ (by norm_num)).1, (randint_mem 50 500 _ (by norm_num)).2,
        (randint_mem 50 350 _ (by norm_num)).1, (randint_mem 50 350 _ (by norm_num)).2,
        (randint_mem 40 100 _ (by norm_num)).1, (randint_mem 40 100 _ (by norm_num)).2,
        (randint_mem 40 100 _ (by norm_num)).1, (randint_mem 40 100 _ (by norm_num)).2,
        (uniform_mem 0.6 0.9 _ (by norm_num) hr0 hr1).1,
        (uniform_mem 0.6 0.9 _ (by norm_num) hr0 hr1).2,
        choice_two "low" "medium" _⟩
    · simp at hdet
  · refine Or.inr (Or.inr (Or.inl ?_))
    unfold detect_loose_bolts at hdet
    split at hdet
    · rw [List.mem_singleton] at hdet
      subst hdet
      exact ⟨rfl, (randint_mem 290 350 _ (by norm_num)).1, (randint_mem 290 350 _ (by norm_num)).2,
        (randint_mem 210 270 _ (by norm_num)).1, (randint_mem 210 270 _ (by norm_num)).2,
        rfl, rfl,
        (uniform_mem 0.8 0.95 _ (by norm_num) hb0 hb1).1,
        (uniform_mem 0.8 0.95 _ (by norm_num) hb0 hb1).2,
        choice_three "medium" "high" "critical" _⟩
    · simp at hdet
  · refine Or.inr (Or.inr (Or.inr ?_))
    unfold detect_corrosion at hdet
    split at hdet
    · rw [List.mem_singleton] at hdet
      subst hdet
      exact ⟨rfl, (randint_mem 100 450 _ (by norm_num)).1, (randint_mem 100 450 _ (by norm_num)).2,
        (randint_mem 100 300 _ (by norm_num)).1, (randint_mem 100 300 _ (by norm_num)).2,
        (randint_mem 60 120 _ (by norm_num)).1, (randint_mem 60 120 _ (by norm_num)).2,
        (randint_mem 60 120 _ (by norm_num)).1, (randint_mem 60 120 _ (by norm_num)).2,
        (uniform_mem 0.65 0.85 _ (by norm_num) hk0 hk1).1,
        (uniform_mem 0.65 0.85 _ (by norm_num) hk0 hk1).2,
        choice_three "low" "medium" "high" _⟩
    · simp at hdet

/-- All-zero draws: every trigger fires and every range draw maps to its
lower bound. -/
def zeroDraws : DetectorDraws := ⟨0, 0, 0, 0, 0, 0, 0⟩

/-- All-zero tick draws. -/
def tdZero : TickDraws := ⟨zeroDraws, zeroDraws, zeroDraws, zeroDraws⟩

theorem C4_detection_ranges_witness :
    (0 ≤ tdZero.crack.rconf ∧ tdZero.crack.rconf < 1) ∧
    (0 ≤ tdZero.rust.rconf ∧ tdZero.rust.rconf < 1) ∧
    (0 ≤ tdZero.loose_bolt.rconf ∧ tdZero.loose_bolt.rconf < 1) ∧
    (0 ≤ tdZero.corrosion.rconf ∧ tdZero.corrosion.rconf < 1) ∧
    ∀ a ∈ detect_anomalies tdZero 0 ⟨0, 0, 0⟩,
      crackRangesOK a ∨ rustRangesOK a ∨ looseBoltRangesOK a ∨ corrosionRangesOK a :=
  ⟨⟨le_refl 0, by norm_num [tdZero, zeroDraws]⟩,
   ⟨le_refl 0, by norm_num [tdZero, zeroDraws]⟩,
   ⟨le_refl 0, by norm_num [tdZero, zeroDraws]⟩,
   ⟨le_refl 0, by norm_num [tdZero, zeroDraws]⟩,
   C4_detection_ranges tdZero 0 ⟨0, 0, 0⟩ (le_refl 0) (by norm_num [tdZero, zeroDraws])
     (le_refl 0) (by norm_num [tdZero, zeroDraws]) (le_refl 0) (by norm_num [tdZero, zeroDraws])
     (le_refl 0) (by norm_num [tdZero, zeroDraws])⟩

/-- The mutable state of `InspectionDashboard` (rendering fields excluded). -/
structure Dashboard where
  drone : DroneState
  anomalies : List Anomaly
  inspection_active : Bool

/-- `InspectionDashboard.__init__` (plot setup excluded). -/
def initDashboard : Dashboard :=
  { drone := initDrone, anomalies := [], inspection_active := false }

/-- `InspectionDashboard.start_inspection` (animation start excluded). -/
def start_inspection (waypoints : List Waypoint) (db : Dashboard) : Dashboard :=
  { db with drone := { set_flight_path waypoints db.drone with is_flying := true },
            inspection_active := true, anomalies := [] }

/-- `InspectionDashboard.update_dashboard` (plot redraws excluded): one tick
of the mission loop, supplied with the tick's random draws and wall-clock
millisecond value.  `update_position` runs with its default `dt = 0.1`, then
anomalies are detected at the updated position and appended, and the
inspection deactivates once the drone is no longer flying. -/
noncomputable def update_dashboard (td : TickDraws) (now_ms : ℕ) (db : Dashboard) :
    Dashboard :=
  if db.inspection_active = false then db
  else
    let drone := update_position 0.1 db.drone
    let new_anomalies := detect_anomalies td now_ms drone.position
    { drone := drone,
      anomalies := db.anomalies ++ new_anomalies,
      inspection_active := if drone.is_flying = false then false else db.inspection_active }

/-- Driving the dashboard tick loop over a list of tick inputs. -/
noncomputable def runDashboard (ticks : List (TickDraws × ℕ)) (db : Dashboard) : Dashboard :=
  ticks.foldl (fun d p => update_dashboard p.1 p.2 d) db

/-- The inspection report.  The wall-clock `inspection_date` string is
external and excluded; `detailed_anomalies` keeps the records themselves in
log order (the code projects each to a dict of the same fields). -/
structure Report where
  total_anomalies : ℕ
  flight_path_length : ℕ
  battery_used : ℝ
  anomalies_by_type : List (String × ℕ)
  anomalies_by_severity : List (String × ℕ)
  detailed_anomalies : List Anomaly

/-- `report[key][k] = report[key].get(k, 0) + 1` on a Python dict, which
keeps insertion order: bump the bucket if present, else append it. -/
def bump (k : String) : List (String × ℕ) → List (String × ℕ)
  | [] => [(k, 1)]
  | (key, n) :: rest => if key = k then (key, n + 1) :: rest else (key, n) :: bump k rest

/-- `InspectionDashboard.generate_report`. -/
def generate_report (db : Dashboard) : Report :=
  { total_anomalies := db.anomalies.length,
    flight_path_length := db.drone.flight_path.length,
    battery_used := 100 - db.drone.battery_level,
    anomalies_by_type := db.anomalies.foldl (fun acc a => bump a.type acc) [],
    anomalies_by_severity := db.anomalies.foldl (fun acc a => bump a.severity acc) [],
    detailed_anomalies := db.anomalies }

/-- Total count over the buckets of a grouping. -/
def bucketSum (l : List (String × ℕ)) : ℕ := (l.map Prod.snd).sum

theorem bucketSum_bump (k : String) (l : List (String × ℕ)) :
    bucketSum (bump k l) = bucketSum l + 1 := by
  induction l with
  | nil => rfl
  | cons p rest ih =>
    obtain ⟨key, n⟩ := p
    unfold bump
    by_cases h : key = k
    · simp only [if_pos h, bucketSum, List.map_cons, List.sum_cons]
      simp [bucketSum] at ih ⊢
      omega
    · simp only [if_neg h, bucketSum, List.map_cons, List.sum_cons]
      simp [bucketSum] at ih ⊢
      omega

theorem foldl_bump_sum (f : Anomaly → String) (l : List Anomaly)
    (init : List (String × ℕ)) :
    bucketSum (l.foldl (fun acc a => bump (f a) acc) init) = bucketSum init + l.length := by
  induction l generalizing init with
  | nil => simp
  | cons a rest ih =>
    simp only [List.foldl_cons, List.length_cons]
    rw [ih, bucketSum_bump]
    omega

/-- Claim C5: the report counts every logged anomaly exactly once per
grouping: the per-category counts sum to the log length, the per-severity
counts sum to the log length, and the total equals the log length. -/
theorem C5_report_aggregation (db : Dashboard) :
    bucketSum (generate_report db).anomalies_by_type = db.anomalies.length ∧
    bucketSum (generate_report db).anomalies_by_severity = db.anomalies.length ∧
    (generate_report db).total_anomalies = db.anomalies.length := by
  refine ⟨?_, ?_, rfl⟩
  · show bucketSum (db.anomalies.foldl (fun acc a => bump a.type acc) []) = _
    rw [foldl_bump_sum (fun a => a.type)]
    simp [bucketSum]
  · show bucketSum (db.anomalies.foldl (fun acc a => bump a.severity acc) []) = _
    rw [foldl_bump_sum (fun a => a.severity)]
    simp [bucketSum]

theorem update_dashboard_inactive (td : TickDraws) (now_ms : ℕ) (db : Dashboard)
    (h : db.inspection_active = false) : update_dashboard td now_ms db = db := by
  simp [update_dashboard, h]

theorem runDashboard_inactive (ticks : List (TickDraws × ℕ)) (db : Dashboard)
    (h : db.inspection_active = false) : runDashboard ticks db = db := by
  induction ticks with
  | nil => rfl
  | cons t rest ih =>
    show runDashboard rest (update_dashboard t.1 t.2 db) = db
    rw [update_dashboard_inactive t.1 t.2 db h]
    exact ih

theorem update_dashboard_empty_active (td : TickDraws) (now_ms : ℕ) (db : Dashboard)
    (hw : db.drone.waypoints = []) (ha : db.inspection_active = true) :
    update_dashboard td now_ms db =
      { drone := { db.drone with is_flying := false },
        anomalies := db.anomalies ++ detect_anomalies td now_ms db.drone.position,
        inspection_active := false } := by
  have hdrone : update_position 0.1 db.drone = { db.drone with is_flying := false } :=
    update_position_done _ _ (Or.inr hw)
  unfold update_dashboard
  rw [if_neg (by rw [ha]; simp)]
  simp only [hdrone]
  simp

/-- Claim C8 (amended): with an empty flight plan the mission completes
immediately with zero ticks of motion and this is not an error: every advance
call leaves the whole state unchanged except for clearing the flying flag,
the dashboard deactivates on the first tick, the report shows
`flight_path_length = 0`, and the cumulative log is exactly the output of the
single detection executed on that completing tick — so `total_anomalies = 0`
whenever no detector triggers on it (but not unconditionally). -/
theorem C8_empty_plan (dt : ℝ) (s : DroneState) (td : TickDraws) (now_ms : ℕ)
    (rest : List (TickDraws × ℕ)) (hw : s.waypoints = []) :
    (update_position dt s = { s with is_flying := false }) ∧
    (runDashboard ((td, now_ms) :: rest) (start_inspection [] initDashboard)).drone.position
      = ⟨0, 0, 100⟩ ∧
    (runDashboard ((td, now_ms) :: rest) (start_inspection [] initDashboard)).drone.flight_path
      = [] ∧
    (runDashboard ((td, now_ms) :: rest) (start_inspection [] initDashboard)).drone.is_flying
      = false ∧
    (runDashboard ((td, now_ms) :: rest) (start_inspection [] initDashboard)).inspection_active
      = false ∧
    (generate_report (runDashboard ((td, now_ms) :: rest)
      (start_inspection [] initDashboard))).flight_path_length = 0 ∧
    (runDashboard ((td, now_ms) :: rest) (start_inspection [] initDashboard)).anomalies
      = detect_anomalies td now_ms ⟨0, 0, 100⟩ ∧
    (detect_anomalies td now_ms ⟨0, 0, 100⟩ = [] →
      (generate_report (runDashboard ((td, now_ms) :: rest)
        (start_inspection [] initDashboard))).total_anomalies = 0) := by
  have h1 : update_dashboard td now_ms (start_inspection [] initDashboard) =
      { drone := { (start_inspection [] initDashboard).drone with is_flying := false },
        anomalies := detect_anomalies td now_ms ⟨0, 0, 100⟩,
        inspection_active := false } := by
    rw [update_dashboard_empty_active td now_ms _ rfl rfl]
    rfl
  have h2 : runDashboard ((td, now_ms) :: rest) (start_inspection [] initDashboard) =
      { drone := { (start_inspection [] initDashboard).drone with is_flying := false },
        anomalies := detect_anomalies td now_ms ⟨0, 0, 100⟩,
        inspection_active := false } := by
    show runDashboard rest (update_dashboard td now_ms (start_inspection [] initDashboard)) = _
    rw [h1, runDashboard_inactive _ _ rfl]
  refine ⟨update_position_done dt s (Or.inr hw), ?_, ?_, ?_, ?_, ?_, ?_, ?_⟩ <;>
    rw [h2] <;> try rfl
  intro hd
  show (detect_anomalies td now_ms ⟨0, 0, 100⟩).length = 0
  rw [hd]
  rfl

/-- Draws on which no detector triggers (`random.random()` returned 1 is
modelled as the supremum case; every threshold test fails). -/
def oneDraws : DetectorDraws := ⟨1, 0, 0, 0, 0, 0, 0⟩

/-- Tick draws on which no detector triggers. -/
def tdNone : TickDraws := ⟨oneDraws, oneDraws, oneDraws, oneDraws⟩

theorem detect_anomalies_tdNone (now_ms : ℕ) (p : Vec3) :
    detect_anomalies tdNone now_ms p = [] := by
  norm_num [detect_anomalies, detect_cracks, detect_rust, detect_loose_bolts,
    detect_corrosion, tdNone, oneDraws]

theorem C8_empty_plan_witness :
    ((startState [] 10).waypoints = []) ∧
    update_position 1 (startState [] 10) = { startState [] 10 with is_flying := false } ∧
    detect_anomalies tdNone 5 ⟨0, 0, 100⟩ = [] ∧
    (generate_report (runDashboard [(tdNone, 5)]
      (start_inspection [] initDashboard))).flight_path_length = 0 ∧
    (generate_report (runDashboard [(tdNone, 5)]
      (start_inspection [] initDashboard))).total_anomalies = 0 := by
  have h := C8_empty_plan 1 (startState [] 10) tdNone 5 [] rfl
  exact ⟨rfl, h.1, detect_anomalies_tdNone 5 _, h.2.2.2.2.2.1,
    h.2.2.2.2.2.2.2 (detect_anomalies_tdNone 5 _)⟩

/-- Claim C8 counterexample: with an empty flight plan, draws on which every
detector triggers on the single completing tick yield a report with
`flight_path_length = 0` but `total_anomalies = 4 ≠ 0`: the code runs one
detection tick even though no motion ever happens. -/
theorem C8_counterexample :
    (generate_report (runDashboard [(tdZero, 0)]
      (start_inspection [] initDashboard))).flight_path_length = 0 ∧
    (generate_report (runDashboard [(tdZero, 0)]
      (start_inspection [] initDashboard))).total_anomalies ≠ 0 := by
  have h1 : update_dashboard tdZero 0 (start_inspection [] initDashboard) =
      { drone := { (start_inspection [] initDashboard).drone with is_flying := false },
        anomalies := detect_anomalies tdZero 0 ⟨0, 0, 100⟩,
        inspection_active := false } := by
    rw [update_dashboard_empty_active tdZero 0 _ rfl rfl]
    rfl
  have h2 : runDashboard [(tdZero, 0)] (start_inspection [] initDashboard) =
      { drone := { (start_inspection [] initDashboard).drone with is_flying := false },
        anomalies := detect_anomalies tdZero 0 ⟨0, 0, 100⟩,
        inspection_active := false } := by
    show runDashboard [] (update_dashboard tdZero 0 (start_inspection [] initDashboard)) = _
    rw [h1]
    rfl
  constructor
  · rw [h2]; rfl
  · rw [h2]
    show (detect_anomalies tdZero 0 ⟨0, 0, 100⟩).length ≠ 0
    norm_num [detect_anomalies, detect_cracks, detect_rust, detect_loose_bolts,
      detect_corrosion, tdZero, zeroDraws]

theorem toDigitsCore_eq_digits (fuel : ℕ) : ∀ (n : ℕ) (acc : List Char), 0 < n →
    n < 10 ^ fuel →
    Nat.toDigitsCore 10 fuel n acc
      = ((Nat.digits 10 n).map Nat.digitChar).reverse ++ acc := by
  induction fuel with
  | zero => intro n acc h0 hfuel; omega
  | succ fuel ih =>
    intro n acc h0 hfuel
    rw [Nat.toDigitsCore]
    by_cases hdiv : n / 10 = 0
    · have hn10 : n < 10 := by omega
      have hdig : Nat.digits 10 n = [n] := by
        rw [Nat.digits_def' (by norm_num : (1:ℕ) < 10) h0, Nat.mod_eq_of_lt hn10, hdiv,
          Nat.digits_zero]
      simp only [hdiv, if_pos, hdig, Nat.mod_eq_of_lt hn10]
      simp
    · rw [if_neg hdiv]
      have h0' : 0 < n / 10 := Nat.pos_of_ne_zero hdiv
      have hlt : n / 10 < 10 ^ fuel := by
        rw [Nat.div_lt_iff_lt_mul (by norm_num : (0:ℕ) < 10)]
        calc n < 10 ^ (fuel + 1) := hfuel
          _ = 10 ^ fuel * 10 := by ring
      rw [ih (n / 10) _ h0' hlt]
      have hdig : Nat.digits 10 n = n % 10 :: Nat.digits 10 (n / 10) :=
        Nat.digits_def' (by norm_num : (1:ℕ) < 10) h0
      rw [hdig]
      simp

theorem repr_eq_of_pos (n : ℕ) (h0 : 0 < n) :
    Nat.repr n = (((Nat.digits 10 n).map Nat.digitChar).reverse).asString := by
  show (Nat.toDigits 10 n).asString = _
  rw [Nat.toDigits, toDigitsCore_eq_digits (n + 1) n [] h0
    (lt_of_lt_of_le (Nat.lt_pow_self (by norm_num) n)
      (Nat.pow_le_pow_right (by norm_num) (by omega)))]
  simp

theorem digitChar_inj_lt : ∀ a < 10, ∀ b < 10, Nat.digitChar a = Nat.digitChar b → a = b := by
  decide

theorem map_digitChar_inj : ∀ (l1 l2 : List ℕ), (∀ x ∈ l1, x < 10) → (∀ x ∈ l2, x < 10) →
    l1.map Nat.digitChar = l2.map Nat.digitChar → l1 = l2 := by
  intro l1
  induction l1 with
  | nil =>
    intro l2 _ _ h
    cases l2 with
    | nil => rfl
    | cons b t2 => simp at h
  | cons a t ih =>
    intro l2 h1 h2 h
    cases l2 with
    | nil => simp at h
    | cons b t2 =>
      simp only [List.map_cons, List.cons.injEq] at h
      have hab : a = b := digitChar_inj_lt a (h1 a (by simp)) b (h2 b (by simp)) h.1
      rw [hab, ih t2 (fun x hx => h1 x (by simp [hx])) (fun x hx => h2 x (by simp [hx])) h.2]

/-- Decimal rendering of naturals (as done by the id f-string) is injective. -/
theorem nat_repr_injective : Function.Injective Nat.repr := by
  intro m n h
  have key : ∀ k : ℕ, 0 < k → Nat.repr k ≠ "0" := by
    intro k hk hrepr
    rw [repr_eq_of_pos k hk] at hrepr
    have hd := congrArg String.data hrepr
    simp only [List.asString] at hd
    have hrev : ((Nat.digits 10 k).map Nat.digitChar).reverse = ['0'] := hd
    have hmap : (Nat.digits 10 k).map Nat.digitChar = ['0'] := by
      have := congrArg List.reverse hrev
      simpa using this
    have hdig : Nat.digits 10 k = [0] := by
      apply map_digitChar_inj _ [0] (fun x hx => Nat.digits_lt_base (by norm_num) hx)
        (by intro x hx; simp at hx; omega)
      simpa using hmap
    have := Nat.ofDigits_digits 10 k
    rw [hdig] at this
    simp [Nat.ofDigits] at this
    omega
  rcases Nat.eq_zero_or_pos m with rfl | hm
  · rcases Nat.eq_zero_or_pos n with rfl | hn
    · rfl
    · exact absurd h.symm (key n hn)
  · rcases Nat.eq_zero_or_pos n with rfl | hn
    · exact absurd h (key m hm)
    · rw [repr_eq_of_pos m hm, repr_eq_of_pos n hn] at h
      have hd := congrArg String.data h
      simp only [List.asString] at hd
      have hmap := congrArg List.reverse hd
      simp only [List.reverse_reverse] at hmap
      have hdig := map_digitChar_inj _ _
        (fun x hx => Nat.digits_lt_base (by norm_num) hx)
        (fun x hx => Nat.digits_lt_base (by norm_num) hx) hmap
      exact Nat.digits.injective 10 hdig

/-- The registered detector keys, in registration order. -/
def anomalyTypes : List String := ["crack", "rust", "loose_bolt", "corrosion"]

/-- Ids built from the four registered categories are injective in the
category and the millisecond value. -/
theorem anomaly_id_inj (ty1 ty2 : String) (h1 : ty1 ∈ anomalyTypes)
    (h2 : ty2 ∈ anomalyTypes) (n m : ℕ)
    (h : ty1 ++ "_" ++ Nat.repr n = ty2 ++ "_" ++ Nat.repr m) : ty1 = ty2 ∧ n = m := by
  fin_cases h1 <;> fin_cases h2 <;>
    first
    | · refine ⟨rfl, ?_⟩
        have hd := congrArg String.data h
        simp [String.data_append] at hd
        exact nat_repr_injective (String.ext hd)
    | · have hd := congrArg String.data h
        simp [String.data_append] at hd

theorem detect_anomalies_mem (td : TickDraws) (now_ms : ℕ) (position : Vec3) :
    ∀ a ∈ detect_anomalies td now_ms position,
      a.type ∈ anomalyTypes ∧ a.id = a.type ++ "_" ++ Nat.repr now_ms ∧
      a.timestamp = now_ms := by
  intro a ha
  unfold detect_anomalies at ha
  simp only [List.mem_append, List.mem_map] at ha
  rcases ha with ((⟨det, hdet, rfl⟩ | ⟨det, hdet, rfl⟩) | ⟨det, hdet, rfl⟩) | ⟨det, hdet, rfl⟩ <;>
    exact ⟨by simp [anomalyTypes, mkAnomaly], rfl, rfl⟩

theorem detect_cracks_length (d : DetectorDraws) : (detect_cracks d).length ≤ 1 := by
  unfold detect_cracks
  split <;> simp

theorem detect_rust_length (d : DetectorDraws) : (detect_rust d).length ≤ 1 := by
  unfold detect_rust
  split <;> simp

theorem detect_loose_bolts_length (d : DetectorDraws) :
    (detect_loose_bolts d).length ≤ 1 := by
  unfold detect_loose_bolts
  split <;> simp

theorem detect_corrosion_length (d : DetectorDraws) : (detect_corrosion d).length ≤ 1 := by
  unfold detect_corrosion
  split <;> simp

theorem pairwise_of_length_le_one {α : Type} {R : α → α → Prop} (l : List α)
    (h : l.length ≤ 1) : l.Pairwise R := by
  cases l with
  | nil => exact List.Pairwise.nil
  | cons a t =>
    cases t with
    | nil => simp
    | cons b t2 => simp at h

theorem mkAnomaly_id_ne (ty1 ty2 : String) (h1 : ty1 ∈ anomalyTypes)
    (h2 : ty2 ∈ anomalyTypes) (hne : ty1 ≠ ty2) (n m : ℕ) (p q : Vec3)
    (d1 d2 : Detection) : (mkAnomaly ty1 n p d1).id ≠ (mkAnomaly ty2 m q d2).id := by
  intro h
  have h' : ty1 ++ "_" ++ Nat.repr n = ty2 ++ "_" ++ Nat.repr m := h
  exact hne (anomaly_id_inj ty1 ty2 h1 h2 n m h').1

/-- Within one tick the four detectors fire at most once each, for four
distinct categories, so the ids of one tick's findings are pairwise
distinct. -/
theorem detect_anomalies_pairwise (td : TickDraws) (now_ms : ℕ) (position : Vec3) :
    (detect_anomalies td now_ms position).Pairwise (fun a b => a.id ≠ b.id) := by
  unfold detect_anomalies
  have hmem : ∀ (ty : String) (l : List Detection) (a : Anomaly),
      a ∈ l.map (mkAnomaly ty now_ms position) → ∃ det, a = mkAnomaly ty now_ms position det := by
    intro ty l a ha
    obtain ⟨det, -, rfl⟩ := List.mem_map.mp ha
    exact ⟨det, rfl⟩
  have hseg : ∀ (ty : String) (l : List Detection), l.length ≤ 1 →
      (l.map (mkAnomaly ty now_ms position)).Pairwise (fun a b => a.id ≠ b.id) := by
    intro ty l hl
    exact pairwise_of_length_le_one _ (by rw [List.length_map]; exact hl)
  have hcross : ∀ (ty1 ty2 : String), ty1 ∈ anomalyTypes → ty2 ∈ anomalyTypes → ty1 ≠ ty2 →
      ∀ (l1 l2 : List Detection) (a : Anomaly), a ∈ l1.map (mkAnomaly ty1 now_ms position) →
      ∀ b ∈ l2.map (mkAnomaly ty2 now_ms position), a.id ≠ b.id := by
    intro ty1 ty2 ht1 ht2 hne l1 l2 a ha b hb
    obtain ⟨d1, rfl⟩ := hmem ty1 l1 a ha
    obtain ⟨d2, rfl⟩ := hmem ty2 l2 b hb
    exact mkAnomaly_id_ne ty1 ty2 ht1 ht2 hne now_ms now_ms position position d1 d2
  rw [List.pairwise_append]
  refine ⟨?_, hseg "corrosion" _ (detect_corrosion_length _), ?_⟩
  · rw [List.pairwise_append]
    refine ⟨?_, hseg "loose_bolt" _ (detect_loose_bolts_length _), ?_⟩
    · rw [List.pairwise_append]
      refine ⟨hseg "crack" _ (detect_cracks_length _),
        hseg "rust" _ (detect_rust_length _), ?_⟩
      intro a ha b hb
      exact hcross "crack" "rust" (by simp [anomalyTypes]) (by simp [anomalyTypes])
        (by simp) _ _ a ha b hb
    · intro a ha b hb
      rcases List.mem_append.mp ha with ha | ha
      · exact hcross "crack" "loose_bolt" (by simp [anomalyTypes]) (by simp [anomalyTypes])
          (by simp) _ _ a ha b hb
      · exact hcross "rust" "loose_bolt" (by simp [anomalyTypes]) (by simp [anomalyTypes])
          (by simp) _ _ a ha b hb
  · intro a ha b hb
    rcases List.mem_append.mp ha with ha | ha
    · rcases List.mem_append.mp ha with ha | ha
      · exact hcross "crack" "corrosion" (by simp [anomalyTypes]) (by simp [anomalyTypes])
          (by simp) _ _ a ha b hb
      · exact hcross "rust" "corrosion" (by simp [anomalyTypes]) (by simp [anomalyTypes])
          (by simp) _ _ a ha b hb
    · exact hcross "loose_bolt" "corrosion" (by simp [anomalyTypes]) (by simp [anomalyTypes])
        (by simp) _ _ a ha b hb

theorem update_dashboard_active (td : TickDraws) (now_ms : ℕ) (db : Dashboard)
    (ha : ¬ db.inspection_active = false) :
    update_dashboard td now_ms db =
      { drone := update_position 0.1 db.drone,
        anomalies := db.anomalies ++
          detect_anomalies td now_ms (update_position 0.1 db.drone).position,
        inspection_active :=
          if (update_position 0.1 db.drone).is_flying = false then false
          else db.inspection_active } := by
  unfold update_dashboard
  rw [if_neg ha]

/-- Invariant run: if the log so far has pairwise-distinct ids, its entries
come from the four categories with ids of the canonical shape and timestamps
disjoint from the upcoming (pairwise-distinct) tick timestamps, then the
final log has pairwise-distinct ids. -/
theorem run_unique_aux :
    ∀ (ticks : List (TickDraws × ℕ)) (db : Dashboard),
      (ticks.map Prod.snd).Nodup →
      (∀ a ∈ db.anomalies, a.type ∈ anomalyTypes ∧
        a.id = a.type ++ "_" ++ Nat.repr a.timestamp ∧
        a.timestamp ∉ ticks.map Prod.snd) →
      db.anomalies.Pairwise (fun a b => a.id ≠ b.id) →
      (runDashboard ticks db).anomalies.Pairwise (fun a b => a.id ≠ b.id) := by
  intro ticks
  induction ticks with
  | nil => intro db _ _ hp; exact hp
  | cons t rest ih =>
    intro db hnd hinv hp
    show (runDashboard rest (update_dashboard t.1 t.2 db)).anomalies.Pairwise _
    have hnd' : (rest.map Prod.snd).Nodup := (List.nodup_cons.mp hnd).2
    have hfresh : t.2 ∉ rest.map Prod.snd := (List.nodup_cons.mp hnd).1
    by_cases hact : db.inspection_active = false
    · rw [update_dashboard_inactive _ _ _ hact]
      refine ih db hnd' (fun a ha => ?_) hp
      obtain ⟨h1, h2, h3⟩ := hinv a ha
      exact ⟨h1, h2, fun hc => h3 (by rw [List.map_cons]; exact List.mem_cons_of_mem _ hc)⟩
    · rw [update_dashboard_active _ _ _ hact]
      set p := (update_position 0.1 db.drone).position with hpp
      have hnew := detect_anomalies_mem t.1 t.2 p
      refine ih _ hnd' (fun a ha => ?_) ?_
      · rcases List.mem_append.mp ha with ha | ha
        · obtain ⟨h1, h2, h3⟩ := hinv a ha
          exact ⟨h1, h2, fun hc => h3 (by rw [List.map_cons]; exact List.mem_cons_of_mem _ hc)⟩
        · obtain ⟨h1, h2, h3⟩ := hnew a ha
          exact ⟨h1, by rw [h2, h3], by rw [h3]; exact hfresh⟩
      · rw [List.pairwise_append]
        refine ⟨hp, detect_anomalies_pairwise t.1 t.2 p, ?_⟩
        intro a ha b hb heq
        obtain ⟨hta, hida, htsa⟩ := hinv a ha
        obtain ⟨htb, hidb, htsb⟩ := hnew b hb
        rw [hida, hidb] at heq
        have := (anomaly_id_inj a.type b.type hta htb a.timestamp t.2 heq).2
        exact htsa (by simp [this])

/-- Claim C7 (amended): all ids in the cumulative log of a run are pairwise
distinct provided distinct ticks carry distinct millisecond clock values;
within a tick the (at most four) findings already have distinct category
prefixes. -/
theorem C7_unique_ids (waypoints : List Waypoint) (ticks : List (TickDraws × ℕ))
    (hnd : (ticks.map Prod.snd).Nodup) :
    (runDashboard ticks (start_inspection waypoints initDashboard)).anomalies.Pairwise
      (fun a b => a.id ≠ b.id) := by
  refine run_unique_aux ticks _ hnd (fun a ha => absurd ha ?_) List.Pairwise.nil
  show a ∉ ([] : List Anomaly)
  simp

theorem C7_unique_ids_witness :
    (([(tdZero, 0), (tdZero, 1)].map Prod.snd).Nodup) ∧
    (runDashboard [(tdZero, 0), (tdZero, 1)]
      (start_inspection [⟨0, 0, 50, "general"⟩] initDashboard)).anomalies.Pairwise
      (fun a b => a.id ≠ b.id) :=
  ⟨by simp, C7_unique_ids [⟨0, 0, 50, "general"⟩] [(tdZero, 0), (tdZero, 1)] (by simp)⟩

instance : Inhabited Anomaly := ⟨⟨"", "", 0, ⟨0, 0, 0⟩, 0, (0, 0, 0, 0), ""⟩⟩

/-- The single waypoint of the C2 scenario. -/
def w50 : Waypoint := ⟨0, 0, 50, "general"⟩

/-- The C2 scenario start state: plan `[(0,0,50)]`, start `(0,0,100)`,
max speed 10. -/
def s0C2 : DroneState := startState [w50] 10

theorem dist_s0C2 : distToTarget s0C2 = 50 := by
  show Vec3.norm (w50.pos - ⟨0, 0, 100⟩) = 50
  rw [show w50.pos - (⟨0, 0, 100⟩ : Vec3) = ⟨0, 0, -50⟩ by
    unfold w50 Waypoint.pos; ext <;> simp <;> norm_num, Vec3.norm_mk_zero_zero]
  norm_num

theorem drone1_flying : (update_position 0.1 s0C2).is_flying = true := by
  rw [update_position_move 0.1 s0C2 (by simp [s0C2]) (by rw [dist_s0C2]; norm_num),
    move_step_is_flying]
  rfl

/-- Crack draws whose confidence draw is `1/2`. -/
noncomputable def halfDraws : DetectorDraws := ⟨0, 0, 0, 0, 0, 1/2, 0⟩

/-- Tick draws on which only the crack detector triggers. -/
def tdCrackA : TickDraws := ⟨zeroDraws, oneDraws, oneDraws, oneDraws⟩

/-- Tick draws on which only the crack detector triggers, with a different
confidence draw. -/
noncomputable def tdCrackB : TickDraws := ⟨halfDraws, oneDraws, oneDraws, oneDraws⟩

theorem detect_crackOnly (d : DetectorDraws) (hd : d.trigger < 0.3) (now_ms : ℕ) (p : Vec3) :
    detect_anomalies ⟨d, oneDraws, oneDraws, oneDraws⟩ now_ms p =
      [mkAnomaly "crack" now_ms p
        ⟨(randint 50 550 d.rx, randint 50 400 d.ry, randint 80 150 d.rw, randint 10 30 d.rh),
         uniform 0.7 0.95 d.rconf, choice ["low", "medium", "high"] d.rsev⟩] := by
  unfold detect_anomalies detect_cracks detect_rust detect_loose_bolts detect_corrosion
  rw [if_pos hd]
  norm_num [oneDraws]

/-- Claim C7 counterexample: two ticks that fall in the same millisecond
(`now_ms = 7`) each log a crack anomaly; the two log entries are distinct
records (their confidences differ) but carry the same id `crack_7`. -/
theorem C7_counterexample :
    (runDashboard [(tdCrackA, 7), (tdCrackB, 7)]
      (start_inspection [w50] initDashboard)).anomalies.length = 2 ∧
    (runDashboard [(tdCrackA, 7), (tdCrackB, 7)]
        (start_inspection [w50] initDashboard)).anomalies.getD 0 default ≠
      (runDashboard [(tdCrackA, 7), (tdCrackB, 7)]
        (start_inspection [w50] initDashboard)).anomalies.getD 1 default ∧
    ((runDashboard [(tdCrackA, 7), (tdCrackB, 7)]
        (start_inspection [w50] initDashboard)).anomalies.getD 0 default).id =
      ((runDashboard [(tdCrackA, 7), (tdCrackB, 7)]
        (start_inspection [w50] initDashboard)).anomalies.getD 1 default).id := by
  have e1 : update_dashboard tdCrackA 7 (start_inspection [w50] initDashboard) =
      ⟨update_position 0.1 s0C2,
       detect_anomalies tdCrackA 7 (update_position 0.1 s0C2).position, true⟩ := by
    rw [show start_inspection [w50] initDashboard = (⟨s0C2, [], true⟩ : Dashboard) from rfl,
      update_dashboard_active _ _ _ (by simp)]
    dsimp only
    rw [drone1_flying]
    simp
  have e2 : (runDashboard [(tdCrackA, 7), (tdCrackB, 7)]
      (start_inspection [w50] initDashboard)).anomalies =
      detect_anomalies tdCrackA 7 (update_position 0.1 s0C2).position ++
        detect_anomalies tdCrackB 7
          (update_position 0.1 (update_position 0.1 s0C2)).position := by
    show (update_dashboard tdCrackB 7 (update_dashboard tdCrackA 7
      (start_inspection [w50] initDashboard))).anomalies = _
    rw [e1, update_dashboard_active _ _ _ (by simp)]
  have hA : detect_anomalies tdCrackA 7 (update_position 0.1 s0C2).position =
      [mkAnomaly "crack" 7 (update_position 0.1 s0C2).position
        ⟨(randint 50 550 0, randint 50 400 0, randint 80 150 0, randint 10 30 0),
         uniform 0.7 0.95 0, choice ["low", "medium", "high"] 0⟩] := by
    rw [show tdCrackA = (⟨zeroDraws, oneDraws, oneDraws, oneDraws⟩ : TickDraws) from rfl,
      detect_crackOnly zeroDraws (by norm_num [zeroDraws]) 7 _]
    rfl
  have hB : detect_anomalies tdCrackB 7
      (update_position 0.1 (update_position 0.1 s0C2)).position =
      [mkAnomaly "crack" 7 (update_position 0.1 (update_position 0.1 s0C2)).position
        ⟨(randint 50 550 0, randint 50 400 0, randint 80 150 0, randint 10 30 0),
         uniform 0.7 0.95 (1/2), choice ["low", "medium", "high"] 0⟩] := by
    rw [show tdCrackB = (⟨halfDraws, oneDraws, oneDraws, oneDraws⟩ : TickDraws) from rfl,
      detect_crackOnly halfDraws (by norm_num [halfDraws]) 7 _]
    rfl
  rw [e2, hA, hB]
  refine ⟨rfl, ?_, rfl⟩
  intro h
  have hc := congrArg Anomaly.confidence h
  simp only [List.getD, List.get?] at hc
  norm_num [mkAnomaly, uniform] at hc

/-- The scalar altitude recurrence of the C2 scenario: all motion is along
the z axis, `zq k` is the (exact rational) altitude after `k` ticks with
`dt = 0.1`, target altitude 50 and max speed 10. -/
def zq : ℕ → ℚ
  | 0 => 100
  | k + 1 => zq k - min 10 ((zq k - 50) * 2) * (1/10)

/-- The z velocity set on tick `k` of the C2 scenario. -/
def vq : ℕ → ℚ
  | 0 => 0
  | k + 1 => -(min 10 ((zq k - 50) * 2))

theorem zqval0 : zq 0 = 100 := rfl

theorem zqval1 : zq 1 = 99 := by
  rw [show (1:ℕ) = 0 + 1 from rfl, zq, zqval0]
  norm_num [min_def]

theorem zqval2 : zq 2 = 98 := by
  rw [show (2:ℕ) = 1 + 1 from rfl, zq, zqval1]
  norm_num [min_def]

theorem zqval3 : zq 3 = 97 := by
  rw [show (3:ℕ) = 2 + 1 from rfl, zq, zqval2]
  norm_num [min_def]

theorem zqval4 : zq 4 = 96 := by
  rw [show (4:ℕ) = 3 + 1 from rfl, zq, zqval3]
  norm_num [min_def]

theorem zqval5 : zq 5 = 95 := by
  rw [show (5:ℕ) = 4 + 1 from rfl, zq, zqval4]
  norm_num [min_def]

theorem zqval6 : zq 6 = 94 := by
  rw [show (6:ℕ) = 5 + 1 from rfl, zq, zqval5]
  norm_num [min_def]

theorem zqval7 : zq 7 = 93 := by
  rw [show (7:ℕ) = 6 + 1 from rfl, zq, zqval6]
  norm_num [min_def]

theorem zqval8 : zq 8 = 92 := by
  rw [show (8:ℕ) = 7 + 1 from rfl, zq, zqval7]
  norm_num [min_def]

theorem zqval9 : zq 9 = 91 := by
  rw [show (9:ℕ) = 8 + 1 from rfl, zq, zqval8]
  norm_num [min_def]

theorem zqval10 : zq 10 = 90 := by
  rw [show (10:ℕ) = 9 + 1 from rfl, zq, zqval9]
  norm_num [min_def]

theorem zqval11 : zq 11 = 89 := by
  rw [show (11:ℕ) = 10 + 1 from rfl, zq, zqval10]
  norm_num [min_def]

theorem zqval12 : zq 12 = 88 := by
  rw [show (12:ℕ) = 11 + 1 from rfl, zq, zqval11]
  norm_num [min_def]

theorem zqval13 : zq 13 = 87 := by
  rw [show (13:ℕ) = 12 + 1 from rfl, zq, zqval12]
  norm_num [min_def]

theorem zqval14 : zq 14 = 86 := by
  rw [show (14:ℕ) = 13 + 1 from rfl, zq, zqval13]
  norm_num [min_def]

theorem zqval15 : zq 15 = 85 := by
  rw [show (15:ℕ) = 14 + 1 from rfl, zq, zqval14]
  norm_num [min_def]

theorem zqval16 : zq 16 = 84 := by
  rw [show (16:ℕ) = 15 + 1 from rfl, zq, zqval15]
  norm_num [min_def]

theorem zqval17 : zq 17 = 83 := by
  rw [show (17:ℕ) = 16 + 1 from rfl, zq, zqval16]
  norm_num [min_def]

theorem zqval18 : zq 18 = 82 := by
  rw [show (18:ℕ) = 17 + 1 from rfl, zq, zqval17]
  norm_num [min_def]

theorem zqval19 : zq 19 = 81 := by
  rw [show (19:ℕ) = 18 + 1 from rfl, zq, zqval18]
  norm_num [min_def]

theorem zqval20 : zq 20 = 80 := by
  rw [show (20:ℕ) = 19 + 1 from rfl, zq, zqval19]
  norm_num [min_def]

theorem zqval21 : zq 21 = 79 := by
  rw [show (21:ℕ) = 20 + 1 from rfl, zq, zqval20]
  norm_num [min_def]

theorem zqval22 : zq 22 = 78 := by
  rw [show (22:ℕ) = 21 + 1 from rfl, zq, zqval21]
  norm_num [min_def]

theorem zqval23 : zq 23 = 77 := by
  rw [show (23:ℕ) = 22 + 1 from rfl, zq, zqval22]
  norm_num [min_def]

theorem zqval24 : zq 24 = 76 := by
  rw [show (24:ℕ) = 23 + 1 from rfl, zq, zqval23]
  norm_num [min_def]

theorem zqval25 : zq 25 = 75 := by
  rw [show (25:ℕ) = 24 + 1 from rfl, zq, zqval24]
  norm_num [min_def]

theorem zqval26 : zq 26 = 74 := by
  rw [show (26:ℕ) = 25 + 1 from rfl, zq, zqval25]
  norm_num [min_def]

theorem zqval27 : zq 27 = 73 := by
  rw [show (27:ℕ) = 26 + 1 from rfl, zq, zqval26]
  norm_num [min_def]

theorem zqval28 : zq 28 = 72 := by
  rw [show (28:ℕ) = 27 + 1 from rfl, zq, zqval27]
  norm_num [min_def]

theorem zqval29 : zq 29 = 71 := by
  rw [show (29:ℕ) = 28 + 1 from rfl, zq, zqval28]
  norm_num [min_def]

theorem zqval30 : zq 30 = 70 := by
  rw [show (30:ℕ) = 29 + 1 from rfl, zq, zqval29]
  norm_num [min_def]

theorem zqval31 : zq 31 = 69 := by
  rw [show (31:ℕ) = 30 + 1 from rfl, zq, zqval30]
  norm_num [min_def]

theorem zqval32 : zq 32 = 68 := by
  rw [show (32:ℕ) = 31 + 1 from rfl, zq, zqval31]
  norm_num [min_def]

theorem zqval33 : zq 33 = 67 := by
  rw [show (33:ℕ) = 32 + 1 from rfl, zq, zqval32]
  norm_num [min_def]

theorem zqval34 : zq 34 = 66 := by
  rw [show (34:ℕ) = 33 + 1 from rfl, zq, zqval33]
  norm_num [min_def]

theorem zqval35 : zq 35 = 65 := by
  rw [show (35:ℕ) = 34 + 1 from rfl, zq, zqval34]
  norm_num [min_def]

theorem zqval36 : zq 36 = 64 := by
  rw [show (36:ℕ) = 35 + 1 from rfl, zq, zqval35]
  norm_num [min_def]

theorem zqval37 : zq 37 = 63 := by
  rw [show (37:ℕ) = 36 + 1 from rfl, zq, zqval36]
  norm_num [min_def]

theorem zqval38 : zq 38 = 62 := by
  rw [show (38:ℕ) = 37 + 1 from rfl, zq, zqval37]
  norm_num [min_def]

theorem zqval39 : zq 39 = 61 := by
  rw [show (39:ℕ) = 38 + 1 from rfl, zq, zqval38]
  norm_num [min_def]

theorem zqval40 : zq 40 = 60 := by
  rw [show (40:ℕ) = 39 + 1 from rfl, zq, zqval39]
  norm_num [min_def]

theorem zqval41 : zq 41 = 59 := by
  rw [show (41:ℕ) = 40 + 1 from rfl, zq, zqval40]
  norm_num [min_def]

theorem zqval42 : zq 42 = 58 := by
  rw [show (42:ℕ) = 41 + 1 from rfl, zq, zqval41]
  norm_num [min_def]

theorem zqval43 : zq 43 = 57 := by
  rw [show (43:ℕ) = 42 + 1 from rfl, zq, zqval42]
  norm_num [min_def]

theorem zqval44 : zq 44 = 56 := by
  rw [show (44:ℕ) = 43 + 1 from rfl, zq, zqval43]
  norm_num [min_def]

theorem zqval45 : zq 45 = 55 := by
  rw [show (45:ℕ) = 44 + 1 from rfl, zq, zqval44]
  norm_num [min_def]

theorem zqval46 : zq 46 = 54 := by
  rw [show (46:ℕ) = 45 + 1 from rfl, zq, zqval45]
  norm_num [min_def]

theorem zqval47 : zq 47 = 266/5 := by
  rw [show (47:ℕ) = 46 + 1 from rfl, zq, zqval46]
  norm_num [min_def]

theorem zqval48 : zq 48 = 1314/25 := by
  rw [show (48:ℕ) = 47 + 1 from rfl, zq, zqval47]
  norm_num [min_def]

theorem zqval49 : zq 49 = 6506/125 := by
  rw [show (49:ℕ) = 48 + 1 from rfl, zq, zqval48]
  norm_num [min_def]

theorem zqval50 : zq 50 = 32274/625 := by
  rw [show (50:ℕ) = 49 + 1 from rfl, zq, zqval49]
  norm_num [min_def]

theorem zqval51 : zq 51 = 160346/3125 := by
  rw [show (51:ℕ) = 50 + 1 from rfl, zq, zqval50]
  norm_num [min_def]

theorem zqval52 : zq 52 = 797634/15625 := by
  rw [show (52:ℕ) = 51 + 1 from rfl, zq, zqval51]
  norm_num [min_def]

theorem zqval53 : zq 53 = 3971786/78125 := by
  rw [show (53:ℕ) = 52 + 1 from rfl, zq, zqval52]
  norm_num [min_def]

theorem zq_ge : ∀ k < 53, 1 ≤ zq k - 50 := by
  intro k hk
  interval_cases k <;> norm_num [zqval0, zqval1, zqval2, zqval3, zqval4, zqval5, zqval6, zqval7, zqval8, zqval9, zqval10, zqval11, zqval12, zqval13, zqval14, zqval15, zqval16, zqval17, zqval18, zqval19, zqval20, zqval21, zqval22, zqval23, zqval24, zqval25, zqval26, zqval27, zqval28, zqval29, zqval30, zqval31, zqval32, zqval33, zqval34, zqval35, zqval36, zqval37, zqval38, zqval39, zqval40, zqval41, zqval42, zqval43, zqval44, zqval45, zqval46, zqval47, zqval48, zqval49, zqval50, zqval51, zqval52]

theorem zq53_lt : zq 53 - 50 < 1 := by
  norm_num [zqval53]

theorem zq53_gt : (50:ℚ) < zq 53 := by
  norm_num [zqval53]

/-- The flight path logged after `k` ticks of the C2 scenario. -/
noncomputable def pathC2 (k : ℕ) : List Vec3 :=
  (List.range k).map (fun j => ⟨0, 0, ((zq (j + 1) : ℚ) : ℝ)⟩)

/-- The full drone state after `k` moving ticks of the C2 scenario. -/
noncomputable def mkC2 (k : ℕ) : DroneState :=
  { position := ⟨0, 0, ((zq k : ℚ) : ℝ)⟩, velocity := ⟨0, 0, ((vq k : ℚ) : ℝ)⟩,
    max_speed := 10, current_waypoint_idx := 0, waypoints := [w50], is_flying := true,
    battery_level := 100 - (k : ℝ) * (1 / 100), flight_path := pathC2 k }

theorem dirC2 (k : ℕ) :
    dirToTarget (mkC2 k) = ⟨0, 0, 50 - ((zq k : ℚ) : ℝ)⟩ := by
  show w50.pos - ⟨0, 0, ((zq k : ℚ) : ℝ)⟩ = _
  unfold w50 Waypoint.pos
  ext <;> simp

theorem distC2 (k : ℕ) (hk : (50:ℚ) < zq k) :
    distToTarget (mkC2 k) = ((zq k : ℚ) : ℝ) - 50 := by
  have hz : (50 : ℝ) < ((zq k : ℚ) : ℝ) := by exact_mod_cast hk
  unfold distToTarget
  rw [dirC2, Vec3.norm_mk_zero_zero, abs_of_nonpos (by linarith), neg_sub]

theorem stepC2 (k : ℕ) (hk : 1 ≤ zq k - 50) :
    update_position 0.1 (mkC2 k) = mkC2 (k + 1) := by
  have hk50 : (50:ℚ) < zq k := by linarith
  have hz1 : (1 : ℝ) ≤ ((zq k : ℚ) : ℝ) - 50 := by
    have h : ((zq k - 50 : ℚ) : ℝ) ≥ ((1:ℚ) : ℝ) := by exact_mod_cast hk
    push_cast at h
    linarith
  have hdist := distC2 k hk50
  have hge : ¬ distToTarget (mkC2 k) < 1 := by rw [hdist]; linarith
  have hpos0 : 0 < distToTarget (mkC2 k) := by rw [hdist]; linarith
  have hidx : (mkC2 k).current_waypoint_idx < (mkC2 k).waypoints.length := by
    simp [mkC2]
  rw [update_position_move 0.1 (mkC2 k) hidx hge, move_step_pos _ _ _ _ _ hpos0,
    hdist, dirC2]
  set z : ℝ := ((zq k : ℚ) : ℝ) with hzdef
  have hzne : z - 50 ≠ 0 := by
    have : (0:ℝ) < z - 50 := by linarith
    exact ne_of_gt this
  have hvq : ((vq (k + 1) : ℚ) : ℝ) = -(min 10 ((z - 50) * 2)) := by
    rw [show vq (k + 1) = -(min 10 ((zq k - 50) * 2)) from rfl]
    push_cast
    rw [← hzdef]
  have hvel : min (mkC2 k).max_speed ((z - 50) * 2) • ((z - 50)⁻¹ • (⟨0, 0, 50 - z⟩ : Vec3))
      = ⟨0, 0, ((vq (k + 1) : ℚ) : ℝ)⟩ := by
    rw [show (mkC2 k).max_speed = (10:ℝ) from rfl, hvq]
    ext <;> simp
    rw [show (z - 50)⁻¹ * (50 - z) = -1 by field_simp]
    ring
  rw [hvel]
  have hzq : ((zq (k + 1) : ℚ) : ℝ) = z - min 10 ((z - 50) * 2) * (1 / 10) := by
    rw [show zq (k + 1) = zq k - min 10 ((zq k - 50) * 2) * (1/10) from rfl]
    push_cast
    rw [← hzdef]
  have hpos : (mkC2 k).position + (0.1:ℝ) • (⟨0, 0, ((vq (k + 1) : ℚ) : ℝ)⟩ : Vec3)
      = ⟨0, 0, ((zq (k + 1) : ℚ) : ℝ)⟩ := by
    rw [show (mkC2 k).position = (⟨0, 0, z⟩ : Vec3) from rfl, hvq, hzq]
    ext <;> simp
    ring
  rw [hpos]
  have hbat : (mkC2 k).battery_level - 0.1 * 0.1 = 100 - ((k:ℝ) + 1) * (1 / 100) := by
    rw [show (mkC2 k).battery_level = 100 - (k : ℝ) * (1 / 100) from rfl]
    norm_num
    ring
  have hpath : (mkC2 k).flight_path ++ [(⟨0, 0, ((zq (k + 1) : ℚ) : ℝ)⟩ : Vec3)]
      = pathC2 (k + 1) := by
    rw [show (mkC2 k).flight_path = pathC2 k from rfl]
    unfold pathC2
    rw [List.range_succ, List.map_append]
    rfl
  refine DroneState.ext rfl rfl rfl rfl rfl rfl ?_ ?_
  · show (mkC2 k).battery_level - 0.1 * 0.1 = (mkC2 (k + 1)).battery_level
    rw [hbat]
    show (100:ℝ) - ((k:ℝ) + 1) * (1 / 100) = 100 - (((k + 1 : ℕ)) : ℝ) * (1 / 100)
    push_cast
    ring
  · show (mkC2 k).flight_path ++ [(⟨0, 0, ((zq (k + 1) : ℚ) : ℝ)⟩ : Vec3)]
      = (mkC2 (k + 1)).flight_path
    rw [hpath]
    rfl

theorem mkC2_zero : mkC2 0 = s0C2 := by
  refine DroneState.ext ?_ ?_ rfl rfl rfl rfl ?_ rfl
  · show (⟨0, 0, ((zq 0 : ℚ) : ℝ)⟩ : Vec3) = ⟨0, 0, 100⟩
    rw [zqval0]
    ext <;> norm_num
  · show (⟨0, 0, ((vq 0 : ℚ) : ℝ)⟩ : Vec3) = ⟨0, 0, 0⟩
    rw [show vq 0 = 0 from rfl]
    ext <;> norm_num
  · show (100:ℝ) - ((0:ℕ) : ℝ) * (1 / 100) = 100
    norm_num

theorem bridgeC2 : ∀ k ≤ 53, (update_position 0.1)^[k] s0C2 = mkC2 k := by
  intro k
  induction k with
  | zero => intro _; rw [Function.iterate_zero]; exact mkC2_zero.symm
  | succ k ih =>
    intro hk
    rw [Function.iterate_succ_apply', ih (by omega), stepC2 k (zq_ge k (by omega))]

theorem c2_final :
    (update_position 0.1)^[54] s0C2 =
      { mkC2 53 with current_waypoint_idx := 1, is_flying := false } := by
  rw [show (54:ℕ) = 53 + 1 from rfl, Function.iterate_succ_apply', bridgeC2 53 le_rfl,
    update_position_arrive_exhaust 0.1 (mkC2 53) (by simp [mkC2])
      (by rw [distC2 53 zq53_gt]
          have h : ((zq 53 - 50 : ℚ) : ℝ) < ((1:ℚ) : ℝ) := by exact_mod_cast zq53_lt
          push_cast at h
          linarith)
      (by simp [mkC2])]
  rfl

/-- Claim C2 (amended): in the scenario `plan = [(0,0,50)]`, start position
`(0,0,100)`, `dt = 0.1`, max speed 10, the drone flies 53 moving ticks, the
distance then sits below the 1.0 threshold, tick 54 sets `is_flying = false`,
and at that point the path history holds 53 entries: the tick count minus
one, because the final arrival tick returns before appending. -/
theorem C2_scenario_corrected :
    ((update_position 0.1)^[53] s0C2).is_flying = true ∧
    distToTarget ((update_position 0.1)^[53] s0C2) < 1 ∧
    ((update_position 0.1)^[54] s0C2).is_flying = false ∧
    ((update_position 0.1)^[54] s0C2).flight_path.length = 53 := by
  rw [bridgeC2 53 le_rfl, c2_final]
  refine ⟨rfl, ?_, rfl, ?_⟩
  · rw [distC2 53 zq53_gt]
    have h : ((zq 53 - 50 : ℚ) : ℝ) < ((1:ℚ) : ℝ) := by exact_mod_cast zq53_lt
    push_cast at h
    linarith
  · show (pathC2 53).length = 53
    unfold pathC2
    rw [List.length_map, List.length_range]

/-- Claim C2 counterexample: in the stated scenario, flying first becomes
false on tick 54, but the path history then holds 53 entries, not 54: the
path-history length does not equal the number of advance calls executed. -/
theorem C2_counterexample :
    ((update_position 0.1)^[53] s0C2).is_flying = true ∧
    ((update_position 0.1)^[54] s0C2).is_flying = false ∧
    ((update_position 0.1)^[54] s0C2).flight_path.length ≠ 54 := by
  rw [bridgeC2 53 le_rfl, c2_final]
  refine ⟨rfl, rfl, ?_⟩
  show (pathC2 53).length ≠ 54
  unfold pathC2
  rw [List.length_map, List.length_range]
  omega
